import Mathlib

/-!
Verification development for the bulk job processing subsystem of the
mail-finder backend.

The definitions below are a shallow embedding of the TypeScript source:

* `submitBulkFinderJob`    — src/app/(dashboard)/bulk-finder/bulk-finder-actions.ts
* `stopBulkFinderJob`      — same file (status update of the stop action)
* `processJobInBackgroundBatch` — src/lib/bulk-finder-processor.ts (batch-of-10 executor)
* `processJobInBackgroundSeq`   — src/app/api/bulk-finder/jobs/route.ts (one-at-a-time executor)
* `processVerifyJob`       — src/app/api/bulk-verify/process/route.ts
* `recoverStuckJobs`       — src/lib/bulk-finder-processor.ts
* `debitStep`/`runDebitSchedule` — the read-then-write credit deduction of the
  executors, made into an explicit interleaving model for the concurrency claim.

Modelling conventions, stated once:
* Database reads/writes are modelled as always succeeding; the error-handling
  branches for storage failures (`profileError`, `updateError`, ...) are elided.
* The external lookup services (`findEmail`, `verifyEmail`) catch transport
  errors internally and return a result with status `error`; they are modelled
  as oracles `Nat → FindResult` / `Nat → VerifyResult` indexed by item index.
* The re-read of the job's persisted status at the executor's cancellation
  point is modelled by an oracle `ext : Nat → JobStatus` giving the status an
  external writer has placed in the row at that point.
* The batch executor launches the ≤ 10 items of a batch concurrently via
  `Promise.all`; the model runs the batch items in array order, which is one
  admissible interleaving of that code.  The shared-credit race itself is
  modelled separately (`runDebitSchedule`).
* JavaScript numbers holding credits are modelled as `Int`; JS falsiness of
  `result.email` / `result.message` (absent or empty string) is modelled by
  `emailTruthy` / `strOr`.
-/

namespace MailFinder

/-- Job-level status enum: 'pending' | 'processing' | 'completed' | 'failed' | 'paused'. -/
inductive JobStatus where
  | pending
  | processing
  | completed
  | failed
  | paused
deriving DecidableEq, Repr

/-- Per-item status of a bulk-finder request. -/
inductive ItemStatus where
  | pending
  | processing
  | completed
  | failed
deriving DecidableEq, Repr

/-- Status field of an email-finder lookup result (src/lib/services/email-finder.ts). -/
inductive FindStatus where
  | valid
  | invalid
  | error
deriving DecidableEq, Repr

/-- Status field of an email-verifier lookup result (email-verifier service). -/
inductive VerifyStatus where
  | valid
  | invalid
  | risky
  | unknown
  | error
deriving DecidableEq, Repr

/-- JS truthiness of an optional string (`result.email` is falsy when absent or empty). -/
def emailTruthy : Option String → Bool
  | none => false
  | some s => s ≠ ""

/-- `a || b` on an optional string, as JS evaluates it (falsy when absent or empty). -/
def strOr (a : Option String) (b : String) : String :=
  match a with
  | none => b
  | some s => if s = "" then b else s

/-- Normalized result of the email-finder service (`EmailFinderResult`). -/
structure FindResult where
  status : FindStatus
  email : Option String := none
  message : Option String := none
  confidence : Option Nat := none
  catch_all : Option Bool := none
  user_name : Option String := none
  mx : Option String := none
deriving DecidableEq, Repr

/-- One entry of `requests_data`: a bulk-find request with its in-place result fields. -/
structure FindItem where
  full_name : String := ""
  domain : String := ""
  status : ItemStatus := .pending
  error : Option String := none
  email : Option String := none
  confidence : Option Nat := none
  catch_all : Option Bool := none
  user_name : Option String := none
  mx : Option String := none
deriving DecidableEq, Repr

instance : Inhabited FindItem := ⟨{}⟩

/-- The credit columns of a `profiles` row. -/
structure Profile where
  credits_find : Int
  credits_verify : Int
deriving DecidableEq, Repr

/-- A `bulk_finder_jobs` row (the columns the core reads and writes). -/
structure FinderJob where
  status : JobStatus
  total_requests : Nat
  processed_requests : Nat
  successful_finds : Nat
  failed_finds : Nat
  requests_data : List FindItem
  current_index : Nat
  error_message : Option String := none
deriving DecidableEq, Repr

instance : Inhabited FinderJob :=
  ⟨{ status := .pending, total_requests := 0, processed_requests := 0,
     successful_finds := 0, failed_finds := 0, requests_data := [], current_index := 0 }⟩

/-- A `credit_transactions` row as inserted by the finder executors. -/
structure CreditTxn where
  amount : Int
  operation : String
  meta_total_requests : Nat
deriving DecidableEq, Repr

/-- Outcome of the job submission gate. -/
inductive SubmitResult where
  | rejected (msg : String)
  | admitted (job : FinderJob)
deriving DecidableEq, Repr

/-- The Job Submission Gate, `submitBulkFinderJob` of bulk-finder-actions.ts.
`authed` stands for `getCurrentUser()` having returned a user, `planExpired`
for `isPlanExpired()`, and `credits_find` for the `credits_find` column the
gate selects (the gate does not read `credits_verify`). -/
def submitBulkFinderJob (authed : Bool) (planExpired : Bool) (credits_find : Int)
    (requests : List FindItem) : SubmitResult :=
  if requests.length = 0 then
    .rejected "Invalid requests array"
  else if ¬ authed then
    .rejected "Unauthorized"
  else if planExpired then
    .rejected "Your plan has expired. Please upgrade to Pro."
  else
    let availableCredits := credits_find
    let requiredCredits : Int := requests.length
    if availableCredits = 0 then
      .rejected "You don\x27t have any Find Credits to perform this action. Please purchase more credits."
    else if availableCredits < requiredCredits then
      .rejected ("You need " ++ toString requiredCredits ++ " Find Credits but only have " ++
        toString availableCredits ++ ". Please purchase more credits.")
    else
      .admitted
        { status := .pending
          total_requests := requests.length
          processed_requests := 0
          successful_finds := 0
          failed_finds := 0
          requests_data := requests.map (fun r => { r with status := .pending })
          current_index := 0 }

/-- The status update performed by `stopBulkFinderJob` of bulk-finder-actions.ts. -/
def stopBulkFinderJob (job : FinderJob) : FinderJob :=
  { job with status := .failed, error_message := some "Job manually stopped by user" }

/-- One item of a batch in `processJobInBackground` of bulk-finder-processor.ts
(lines 152–231): read the credit pools, fail the item if the combined balance
is below 1, otherwise deduct 1 credit (find pool first) and record the lookup
result on the item.  Returns the mutated request, the profile after the debit,
and the success flag the batch reduction counts. -/
def processBatchItem (profile : Profile) (req : FindItem) (result : FindResult) :
    FindItem × Profile × Bool :=
  let currentFindCredits := profile.credits_find
  let currentVerifyCredits := profile.credits_verify
  let totalCredits := currentFindCredits + currentVerifyCredits
  if totalCredits < 1 then
    ({ req with status := .failed, error := some "Insufficient credits" }, profile, false)
  else
    let profile' :=
      if currentFindCredits > 0 then
        { profile with credits_find := currentFindCredits - 1 }
      else
        { profile with credits_verify := currentVerifyCredits - 1 }
    if result.status = .valid ∧ emailTruthy result.email then
      ({ req with
          status := .completed
          email := result.email
          confidence := result.confidence
          catch_all := result.catch_all
          user_name := result.user_name
          mx := result.mx }, profile', true)
    else
      ({ req with
          status := .failed
          error := some (strOr result.message "Email not found") }, profile', false)

/-- Sequential interleaving of the `Promise.all` over one batch: process the
`fuel` items starting at index `i`, threading the shared profile, and count
successes and failures. -/
def processItems (lookup : Nat → FindResult) :
    Nat → Nat → List FindItem → Profile → List FindItem × Profile × Nat × Nat
  | 0, _, requests, profile => (requests, profile, 0, 0)
  | fuel + 1, i, requests, profile =>
    let req := requests.getD i default
    let step := processBatchItem profile req (lookup i)
    let rest := processItems lookup fuel (i + 1) (requests.set i step.1) step.2.1
    (rest.1, rest.2.1,
      (if step.2.2 then 1 else 0) + rest.2.2.1,
      (if step.2.2 then 0 else 1) + rest.2.2.2)

/-- Mutable state of the batch executor's main loop. -/
structure BatchState where
  requests : List FindItem
  profile : Profile
  processedCount : Nat
  successCount : Nat
  failedCount : Nat
  totalProcessedRequests : Nat
  row : FinderJob
  writes : List FinderJob
deriving Repr

/-- One iteration of the batch executor's `for` loop (bulk-finder-processor.ts
lines 146–263): process the batch `[batchStart, min (batchStart+10) len)`,
advance the counters, and persist the progress row (counters, `requests_data`,
`current_index := batchEnd`; the write does not touch `status`). -/
def batchIter (lookup : Nat → FindResult) (len batchStart : Nat) (s : BatchState) :
    BatchState :=
  let batchEnd := min (batchStart + 10) len
  let batch := processItems lookup (batchEnd - batchStart) batchStart s.requests s.profile
  let processed' := s.processedCount + (batchEnd - batchStart)
  let total' := s.totalProcessedRequests + (batchEnd - batchStart)
  let success' := s.successCount + batch.2.2.1
  let failed' := s.failedCount + batch.2.2.2
  let row' := { s.row with
    processed_requests := processed'
    successful_finds := success'
    failed_finds := failed'
    requests_data := batch.1
    current_index := batchEnd }
  { requests := batch.1
    profile := batch.2.1
    processedCount := processed'
    successCount := success'
    failedCount := failed'
    totalProcessedRequests := total'
    row := row'
    writes := s.writes ++ [row'] }

/-- The `for (batchStart …; batchStart += BATCH_SIZE)` loop of
`processJobInBackground` in bulk-finder-processor.ts: before each batch the
persisted status is re-read (`ext batchStart`); a status of failed or paused
breaks the loop; otherwise the iteration `batchIter` runs and the loop
advances to `batchEnd`.  The `fuel` argument only bounds the number of
iterations for structural recursion; since each iteration advances
`batchStart` by at least 1, any fuel of at least `len + 1` never runs out. -/
def batchLoop (lookup : Nat → FindResult) (ext : Nat → JobStatus) (len : Nat) :
    Nat → Nat → BatchState → BatchState
  | 0, _, s => s
  | fuel + 1, batchStart, s =>
    if batchStart < len then
      if ext batchStart = .failed ∨ ext batchStart = .paused then s
      else
        batchLoop lookup ext len fuel (min (batchStart + 10) len)
          (batchIter lookup len batchStart s)
    else s

/-- Result of one run of a finder executor: the final job row, the profile,
the trace of job-row states after each persisted write, the
`credit_transactions` rows inserted, and `totalProcessedRequests`. -/
structure FinderRunOut where
  row : FinderJob
  profile : Profile
  writes : List FinderJob
  ledgerInserts : List CreditTxn
  totalProcessedRequests : Nat
deriving Repr

/-- `processJobInBackground` of src/lib/bulk-finder-processor.ts: set the job
to processing, run the batch loop from `current_index`, insert one bulk
`credit_transactions` row when at least one request was processed this run,
and mark the job completed. -/
def processJobInBackgroundBatch (lookup : Nat → FindResult) (ext : Nat → JobStatus)
    (job : FinderJob) (profile : Profile) : FinderRunOut :=
  let row0 := { job with status := .processing }
  let s := batchLoop lookup ext job.requests_data.length
    (job.requests_data.length + 1) job.current_index
    { requests := job.requests_data
      profile := profile
      processedCount := job.processed_requests
      successCount := job.successful_finds
      failedCount := job.failed_finds
      totalProcessedRequests := 0
      row := row0
      writes := [row0] }
  let ledger : List CreditTxn :=
    if s.totalProcessedRequests > 0 then
      [{ amount := -(s.totalProcessedRequests : Int), operation := "email_find",
         meta_total_requests := s.totalProcessedRequests }]
    else []
  let rowF := { s.row with status := .completed }
  { row := rowF
    profile := s.profile
    writes := s.writes ++ [rowF]
    ledgerInserts := ledger
    totalProcessedRequests := s.totalProcessedRequests }

/-- Mutable state of the sequential executor's main loop. -/
structure SeqState where
  requests : List FindItem
  profile : Profile
  processedCount : Nat
  successCount : Nat
  failedCount : Nat
  totalProcessedRequests : Nat
  row : FinderJob
  writes : List FinderJob
deriving Repr

/-- One iteration of the per-item `for` loop of `processJobInBackground` in
src/app/api/bulk-finder/jobs/route.ts (lines 145–275): the item is marked
processing and a progress row (`current_index := i`, `requests_data`) is
persisted; a combined balance below 1 marks the item failed with
`Insufficient credits` and continues WITHOUT incrementing `processedCount`
and without a further write; otherwise 1 credit is deducted (find pool
first), `totalProcessedRequests` is incremented, the lookup result is
recorded on the item, the counters advance, and the full progress row
(`current_index := i + 1`) is persisted. -/
def seqIter (lookup : Nat → FindResult) (i : Nat) (s : SeqState) : SeqState :=
  let req := s.requests.getD i default
  let req1 := { req with status := ItemStatus.processing }
  let requests1 := s.requests.set i req1
  let row1 := { s.row with current_index := i, requests_data := requests1 }
  let writes1 := s.writes ++ [row1]
  let currentFindCredits := s.profile.credits_find
  let currentVerifyCredits := s.profile.credits_verify
  let totalCredits := currentFindCredits + currentVerifyCredits
  if totalCredits < 1 then
    let req2 := { req1 with status := ItemStatus.failed, error := some "Insufficient credits" }
    { s with
      requests := requests1.set i req2
      failedCount := s.failedCount + 1
      row := row1
      writes := writes1 }
  else
    let profile' :=
      if currentFindCredits > 0 then
        { s.profile with credits_find := currentFindCredits - 1 }
      else
        { s.profile with credits_verify := currentVerifyCredits - 1 }
    let total' := s.totalProcessedRequests + 1
    let result := lookup i
    let step :=
      if result.status = .valid ∧ emailTruthy result.email then
        ({ req1 with
            status := ItemStatus.completed
            email := result.email
            confidence := result.confidence
            catch_all := result.catch_all
            user_name := result.user_name
            mx := result.mx }, true)
      else
        ({ req1 with
            status := ItemStatus.failed
            error := some (strOr result.message "Email not found") }, false)
    let requests2 := requests1.set i step.1
    let success' := s.successCount + (if step.2 then 1 else 0)
    let failed' := s.failedCount + (if step.2 then 0 else 1)
    let processed' := s.processedCount + 1
    let row2 := { row1 with
      processed_requests := processed'
      successful_finds := success'
      failed_finds := failed'
      requests_data := requests2
      current_index := i + 1 }
    { requests := requests2
      profile := profile'
      processedCount := processed'
      successCount := success'
      failedCount := failed'
      totalProcessedRequests := total'
      row := row2
      writes := writes1 ++ [row2] }

/-- The per-item loop itself: re-read the status before each item, break on
failed/paused, otherwise run `seqIter` and advance.  `fuel` only bounds the
iteration count for structural recursion; `len + 1` or more never runs out. -/
def seqLoop (lookup : Nat → FindResult) (ext : Nat → JobStatus) (len : Nat) :
    Nat → Nat → SeqState → SeqState
  | 0, _, s => s
  | fuel + 1, i, s =>
    if i < len then
      if ext i = .failed ∨ ext i = .paused then s
      else
        seqLoop lookup ext len fuel (i + 1) (seqIter lookup i s)
    else s

/-- `processJobInBackground` of src/app/api/bulk-finder/jobs/route.ts: set the
job to processing, run the per-item loop from `current_index`, insert one bulk
`credit_transactions` row when `totalProcessedRequests > 0` (here the counter
is incremented only after a successful debit), and mark the job completed. -/
def processJobInBackgroundSeq (lookup : Nat → FindResult) (ext : Nat → JobStatus)
    (job : FinderJob) (profile : Profile) : FinderRunOut :=
  let row0 := { job with status := .processing }
  let s := seqLoop lookup ext job.requests_data.length
    (job.requests_data.length + 1) job.current_index
    { requests := job.requests_data
      profile := profile
      processedCount := job.processed_requests
      successCount := job.successful_finds
      failedCount := job.failed_finds
      totalProcessedRequests := 0
      row := row0
      writes := [row0] }
  let ledger : List CreditTxn :=
    if s.totalProcessedRequests > 0 then
      [{ amount := -(s.totalProcessedRequests : Int), operation := "email_find",
         meta_total_requests := s.totalProcessedRequests }]
    else []
  let rowF := { s.row with status := .completed }
  { row := rowF
    profile := s.profile
    writes := s.writes ++ [rowF]
    ledgerInserts := ledger
    totalProcessedRequests := s.totalProcessedRequests }

/-- `recoverStuckJobs` of src/lib/bulk-finder-processor.ts: every job whose
status is processing and whose `updated_at` is older than thirty minutes
before `now` is set back to pending (only `status` and `updated_at` are
written; `current_index`, the counters and `requests_data` are untouched).
`updated_at` is modelled as milliseconds since the epoch. -/
def recoverStuckJobs (now : Nat) (jobs : List (FinderJob × Nat)) :
    List (FinderJob × Nat) :=
  jobs.map (fun jt =>
    if jt.1.status = .processing ∧ jt.2 < now - 30 * 60 * 1000 then
      ({ jt.1 with status := .pending }, now)
    else jt)

/-- Per-item status in `emails_data` of a bulk verification job: entries start
as pending and are overwritten with the verifier's result status. -/
inductive VItemStatus where
  | pending
  | verified (s : VerifyStatus)
deriving DecidableEq, Repr

/-- Normalized result of the email-verifier service (`EmailVerifierResult`). -/
structure VerifyResult where
  status : VerifyStatus
  catch_all : Option Bool := none
  domain : Option String := none
  mx : Option String := none
  user_name : Option String := none
deriving DecidableEq, Repr

/-- One entry of `emails_data`. -/
structure VItem where
  email : String := ""
  status : VItemStatus := .pending
  catch_all : Option Bool := none
  domain : Option String := none
  mx : Option String := none
  user_name : Option String := none
deriving DecidableEq, Repr

instance : Inhabited VItem := ⟨{}⟩

/-- A `bulk_verification_jobs` row (the columns the core reads and writes). -/
structure VerifyJob where
  status : JobStatus
  total_emails : Nat
  processed_emails : Nat
  successful_verifications : Nat
  failed_verifications : Nat
  emails_data : List VItem
  error_message : Option String := none
deriving DecidableEq, Repr

instance : Inhabited VerifyJob :=
  ⟨{ status := .pending, total_emails := 0, processed_emails := 0,
     successful_verifications := 0, failed_verifications := 0, emails_data := [] }⟩

/-- A `transactions` row as inserted per item by the bulk-verify executor. -/
structure VerifyTxn where
  product_type : String
  amount : Int
  credits_find_added : Int
deriving DecidableEq, Repr

/-- Result of one run of the bulk-verify executor. -/
structure VerifyRunOut where
  row : VerifyJob
  profile : Profile
  writes : List VerifyJob
  txnInserts : List VerifyTxn
deriving Repr

/-- Mutable state of the bulk-verify executor's loop. -/
structure VerifyState where
  emails : List VItem
  profile : Profile
  processedCount : Nat
  successfulCount : Nat
  failedCount : Nat
  row : VerifyJob
  writes : List VerifyJob
  txns : List VerifyTxn
deriving Repr

/-- The insufficient-credits abort of `processJob` in
src/app/api/bulk-verify/process/route.ts (lines 123–136): when the combined
balance drops below 1 the whole JOB is marked failed, persisting the current
counters, `emails_data` and the insufficient-credits error message, and the
executor returns. -/
def verifyAbort (s : VerifyState) : VerifyState :=
  let rowF := { s.row with
    status := JobStatus.failed
    error_message := some "You don\x27t have enough credits to continue verification. Please purchase additional credits or upgrade your plan to proceed."
    processed_emails := s.processedCount
    successful_verifications := s.successfulCount
    failed_verifications := s.failedCount
    emails_data := s.emails }
  { s with row := rowF, writes := s.writes ++ [rowF] }

/-- One iteration of the per-email loop (taken when the combined balance is at
least 1): verify the email, overwrite its entry with the result, deduct 1
credit (verify pool first, the verify pool clamped to 0 when the find pool
covers the debit), insert one `transactions` row, advance the counters, and
persist the progress row every 10 processed emails or at the end. -/
def verifyIter (lookup : Nat → VerifyResult) (len i : Nat) (s : VerifyState) :
    VerifyState :=
  let currentFindCredits := s.profile.credits_find
  let currentVerifyCredits := s.profile.credits_verify
  let emailData := s.emails.getD i default
  let result := lookup i
  let item' := { emailData with
    status := VItemStatus.verified result.status
    catch_all := result.catch_all
    domain := result.domain
    mx := result.mx
    user_name := result.user_name }
  let emails' := s.emails.set i item'
  let profile' :=
    if currentVerifyCredits ≥ 1 then
      { s.profile with credits_verify := currentVerifyCredits - 1 }
    else
      { credits_verify := 0, credits_find := currentFindCredits - 1 }
  let txns' := s.txns ++
    [{ product_type := "email_verify", amount := 0, credits_find_added := -1 }]
  let successful' := s.successfulCount + (if result.status = .valid then 1 else 0)
  let failed' := s.failedCount + (if result.status = .valid then 0 else 1)
  let processed' := s.processedCount + 1
  let doWrite := processed' % 10 = 0 ∨ processed' = len
  let row' := if doWrite then
      { s.row with
        processed_emails := processed'
        successful_verifications := successful'
        failed_verifications := failed'
        emails_data := emails' }
    else s.row
  { emails := emails'
    profile := profile'
    processedCount := processed'
    successfulCount := successful'
    failedCount := failed'
    row := row'
    writes := if doWrite then s.writes ++ [row'] else s.writes
    txns := txns' }

/-- The per-email loop itself: no status re-read happens here; a combined
balance below 1 aborts the whole job via `verifyAbort`, otherwise `verifyIter`
runs and the loop advances.  `fuel` only bounds the iteration count for
structural recursion; `len + 1` or more never runs out. -/
def verifyLoop (lookup : Nat → VerifyResult) (len : Nat) :
    Nat → Nat → VerifyState → VerifyState
  | 0, _, s => s
  | fuel + 1, i, s =>
    if i < len then
      if s.profile.credits_find + s.profile.credits_verify < 1 then
        verifyAbort s
      else
        verifyLoop lookup len fuel (i + 1) (verifyIter lookup len i s)
    else s

/-- `processJob` of src/app/api/bulk-verify/process/route.ts: set the job to
processing, loop from `processed_emails`, and (unless the loop aborted the job
for lack of credits) persist the completed row.  The aborted case is detected
by the row status the loop left behind. -/
def processVerifyJob (lookup : Nat → VerifyResult) (job : VerifyJob)
    (profile : Profile) : VerifyRunOut :=
  let row0 := { job with status := JobStatus.processing }
  let s := verifyLoop lookup job.emails_data.length
    (job.emails_data.length + 1) job.processed_emails
    { emails := job.emails_data
      profile := profile
      processedCount := job.processed_emails
      successfulCount := job.successful_verifications
      failedCount := job.failed_verifications
      row := row0
      writes := [row0]
      txns := [] }
  if s.row.status = JobStatus.failed then
    { row := s.row, profile := s.profile, writes := s.writes, txnInserts := s.txns }
  else
    let rowF := { s.row with
      status := JobStatus.completed
      processed_emails := s.processedCount
      successful_verifications := s.successfulCount
      failed_verifications := s.failedCount
      emails_data := s.emails }
    { row := rowF, profile := s.profile, writes := s.writes ++ [rowF], txnInserts := s.txns }

/-- The status update performed by the stop action of the bulk-verify page
(src/app/(dashboard)/verify/page.tsx): a processing job is set to failed with
the manual-stop message. -/
def stopBulkVerificationJob (job : VerifyJob) : VerifyJob :=
  if job.status = JobStatus.processing then
    { job with status := .failed, error_message := some "Job manually stopped by user" }
  else job

/-- One caller of the executors' credit deduction (bulk-finder-processor.ts
lines 158–203 and jobs/route.ts lines 159–206): a READ of both pools followed,
in a separate step, by a check of the read values and an absolute WRITE of the
decremented pool.  Nothing makes the two steps atomic. -/
structure DebitCaller where
  readVal : Option (Int × Int) := none
  finished : Bool := false
  succeeded : Bool := false
deriving DecidableEq, Repr

instance : Inhabited DebitCaller := ⟨{}⟩

/-- Advance one caller by one step against the shared profile row: the first
step reads the pools, the second validates the READ values and writes the
debited balance computed from them (find pool preferred, as in the finder
executors). -/
def debitStep (profile : Profile) (c : DebitCaller) : Profile × DebitCaller :=
  match c.readVal with
  | none => (profile, { c with readVal := some (profile.credits_find, profile.credits_verify) })
  | some fv =>
    if c.finished then (profile, c)
    else if fv.1 + fv.2 < 1 then
      (profile, { c with finished := true, succeeded := false })
    else
      let profile' :=
        if fv.1 > 0 then { profile with credits_find := fv.1 - 1 }
        else { profile with credits_verify := fv.2 - 1 }
      (profile', { c with finished := true, succeeded := true })

/-- Run a schedule (a list of caller indices) of interleaved debit steps. -/
def runDebitSchedule (sched : List Nat) (profile : Profile)
    (callers : List DebitCaller) : Profile × List DebitCaller :=
  match sched with
  | [] => (profile, callers)
  | idx :: rest =>
    let c := callers.getD idx default
    let step := debitStep profile c
    runDebitSchedule rest step.1 (callers.set idx step.2)

/-- Number of callers whose debit reported success. -/
def debitSuccesses (callers : List DebitCaller) : Nat :=
  (callers.filter (fun c => c.succeeded)).length

/-- Whether the submission gate admitted the job. -/
def SubmitResult.isAdmitted : SubmitResult → Bool
  | .admitted _ => true
  | .rejected _ => false

/-!  ## Supporting lemmas  -/

theorem processItems_length (lookup : Nat → FindResult) (fuel i : Nat)
    (requests : List FindItem) (profile : Profile) :
    (processItems lookup fuel i requests profile).1.length = requests.length := by
  induction fuel generalizing i requests profile with
  | zero => rfl
  | succ n ih =>
    simp only [processItems]
    rw [ih]
    simp

theorem processItems_counts (lookup : Nat → FindResult) (fuel i : Nat)
    (requests : List FindItem) (profile : Profile) :
    (processItems lookup fuel i requests profile).2.2.1 +
      (processItems lookup fuel i requests profile).2.2.2 = fuel := by
  induction fuel generalizing i requests profile with
  | zero => rfl
  | succ n ih =>
    simp only [processItems]
    have := ih (i + 1)
      (requests.set i (processBatchItem profile (requests.getD i default) (lookup i)).1)
      (processBatchItem profile (requests.getD i default) (lookup i)).2.1
    split <;> omega

theorem processBatchItem_status (profile : Profile) (req : FindItem) (result : FindResult) :
    (processBatchItem profile req result).1.status = ItemStatus.completed ∨
    (processBatchItem profile req result).1.status = ItemStatus.failed := by
  unfold processBatchItem
  dsimp only
  split_ifs <;> simp

theorem processItems_get_out (lookup : Nat → FindResult) (fuel lo : Nat)
    (requests : List FindItem) (profile : Profile) (i : Nat)
    (hi : i < lo ∨ lo + fuel ≤ i) :
    (processItems lookup fuel lo requests profile).1.get? i = requests.get? i := by
  induction fuel generalizing lo requests profile with
  | zero => rfl
  | succ n ih =>
    simp only [processItems]
    rw [ih (lo + 1) _ _ (by omega)]
    exact List.get?_set_ne _ _ (by omega)

theorem processItems_get_in (lookup : Nat → FindResult) (fuel lo : Nat)
    (requests : List FindItem) (profile : Profile) (i : Nat)
    (h1 : lo ≤ i) (h2 : i < lo + fuel) (h3 : i < requests.length) :
    ∃ r, (processItems lookup fuel lo requests profile).1.get? i = some r ∧
      (r.status = ItemStatus.completed ∨ r.status = ItemStatus.failed) := by
  induction fuel generalizing lo requests profile with
  | zero => omega
  | succ n ih =>
    simp only [processItems]
    by_cases hlo : i = lo
    · subst hlo
      rw [processItems_get_out lookup n (i + 1) _ _ i (by omega)]
      refine ⟨(processBatchItem profile (requests.getD i default) (lookup i)).1, ?_, ?_⟩
      · exact List.get?_set_eq_of_lt _ h3
      · exact processBatchItem_status _ _ _
    · exact ih (lo + 1) (requests.set lo _) _ (by omega) (by omega)
        (by rw [List.length_set]; exact h3)

theorem processItems_append (lookup : Nat → FindResult) (m n lo : Nat)
    (requests : List FindItem) (profile : Profile) :
    processItems lookup (m + n) lo requests profile =
      ((processItems lookup n (lo + m)
          (processItems lookup m lo requests profile).1
          (processItems lookup m lo requests profile).2.1).1,
        (processItems lookup n (lo + m)
          (processItems lookup m lo requests profile).1
          (processItems lookup m lo requests profile).2.1).2.1,
        (processItems lookup m lo requests profile).2.2.1 +
          (processItems lookup n (lo + m)
            (processItems lookup m lo requests profile).1
            (processItems lookup m lo requests profile).2.1).2.2.1,
        (processItems lookup m lo requests profile).2.2.2 +
          (processItems lookup n (lo + m)
            (processItems lookup m lo requests profile).1
            (processItems lookup m lo requests profile).2.1).2.2.2) := by
  induction m generalizing lo requests profile with
  | zero => simp [processItems]
  | succ k ih =>
    have hadd : k + 1 + n = (k + n) + 1 := by omega
    rw [hadd]
    simp only [processItems]
    rw [ih (lo + 1)]
    have hlo : lo + 1 + k = lo + (k + 1) := by omega
    rw [hlo]
    dsimp only
    simp only [Prod.mk.injEq]
    refine ⟨trivial, trivial, ?_, ?_⟩ <;>
      by_cases hifb :
        (processBatchItem profile (requests.getD lo default) (lookup lo)).2.2 = true <;>
      simp [hifb] <;> omega

theorem batchLoop_inv (lookup : Nat → FindResult) (ext : Nat → JobStatus) (len : Nat)
    (P : BatchState → Prop)
    (hP : ∀ bs s, bs < len → P s → P (batchIter lookup len bs s)) :
    ∀ fuel bs s, P s → P (batchLoop lookup ext len fuel bs s) := by
  intro fuel
  induction fuel with
  | zero => intro bs s hs; exact hs
  | succ n ih =>
    intro bs s hs
    rw [batchLoop]
    by_cases h : bs < len
    · rw [if_pos h]
      by_cases hstop : ext bs = JobStatus.failed ∨ ext bs = JobStatus.paused
      · rw [if_pos hstop]; exact hs
      · rw [if_neg hstop]
        exact ih (min (bs + 10) len) (batchIter lookup len bs s) (hP bs s h hs)
    · rw [if_neg h]; exact hs

theorem seqLoop_inv (lookup : Nat → FindResult) (ext : Nat → JobStatus) (len : Nat)
    (P : SeqState → Prop)
    (hP : ∀ i s, i < len → P s → P (seqIter lookup i s)) :
    ∀ fuel i s, P s → P (seqLoop lookup ext len fuel i s) := by
  intro fuel
  induction fuel with
  | zero => intro i s hs; exact hs
  | succ n ih =>
    intro i s hs
    rw [seqLoop]
    by_cases h : i < len
    · rw [if_pos h]
      by_cases hstop : ext i = JobStatus.failed ∨ ext i = JobStatus.paused
      · rw [if_pos hstop]; exact hs
      · rw [if_neg hstop]
        exact ih (i + 1) (seqIter lookup i s) (hP i s h hs)
    · rw [if_neg h]; exact hs

theorem verifyLoop_inv (lookup : Nat → VerifyResult) (len : Nat)
    (P : VerifyState → Prop)
    (hA : ∀ s, P s → P (verifyAbort s))
    (hP : ∀ i s, i < len → P s → P (verifyIter lookup len i s)) :
    ∀ fuel i s, P s → P (verifyLoop lookup len fuel i s) := by
  intro fuel
  induction fuel with
  | zero => intro i s hs; exact hs
  | succ n ih =>
    intro i s hs
    rw [verifyLoop]
    by_cases h : i < len
    · rw [if_pos h]
      by_cases hcr : s.profile.credits_find + s.profile.credits_verify < 1
      · rw [if_pos hcr]; exact hA s hs
      · rw [if_neg hcr]
        exact ih (i + 1) (verifyIter lookup len i s) (hP i s h hs)
    · rw [if_neg h]; exact hs

theorem batchLoop_inv2 (lookup : Nat → FindResult) (ext : Nat → JobStatus) (len : Nat)
    (P : Nat → BatchState → Prop)
    (hP : ∀ bs s, bs < len → ¬(ext bs = JobStatus.failed ∨ ext bs = JobStatus.paused) →
      P bs s → P (min (bs + 10) len) (batchIter lookup len bs s)) :
    ∀ fuel bs s, P bs s → ∃ bs2, P bs2 (batchLoop lookup ext len fuel bs s) := by
  intro fuel
  induction fuel with
  | zero => intro bs s hs; exact ⟨bs, hs⟩
  | succ n ih =>
    intro bs s hs
    rw [batchLoop]
    by_cases h : bs < len
    · rw [if_pos h]
      by_cases hstop : ext bs = JobStatus.failed ∨ ext bs = JobStatus.paused
      · rw [if_pos hstop]; exact ⟨bs, hs⟩
      · rw [if_neg hstop]
        exact ih (min (bs + 10) len) (batchIter lookup len bs s) (hP bs s h hstop hs)
    · rw [if_neg h]; exact ⟨bs, hs⟩

theorem seqLoop_inv2 (lookup : Nat → FindResult) (ext : Nat → JobStatus) (len : Nat)
    (P : Nat → SeqState → Prop)
    (hP : ∀ i s, i < len → ¬(ext i = JobStatus.failed ∨ ext i = JobStatus.paused) →
      P i s → P (i + 1) (seqIter lookup i s)) :
    ∀ fuel i s, P i s → ∃ i2, P i2 (seqLoop lookup ext len fuel i s) := by
  intro fuel
  induction fuel with
  | zero => intro i s hs; exact ⟨i, hs⟩
  | succ n ih =>
    intro i s hs
    rw [seqLoop]
    by_cases h : i < len
    · rw [if_pos h]
      by_cases hstop : ext i = JobStatus.failed ∨ ext i = JobStatus.paused
      · rw [if_pos hstop]; exact ⟨i, hs⟩
      · rw [if_neg hstop]
        exact ih (i + 1) (seqIter lookup i s) (hP i s h hstop hs)
    · rw [if_neg h]; exact ⟨i, hs⟩

theorem verifyLoop_inv2 (lookup : Nat → VerifyResult) (len : Nat)
    (P : Nat → VerifyState → Prop)
    (hA : ∀ i s, i < len → P i s → P i (verifyAbort s))
    (hP : ∀ i s, i < len → P i s → P (i + 1) (verifyIter lookup len i s)) :
    ∀ fuel i s, P i s → ∃ i2, P i2 (verifyLoop lookup len fuel i s) := by
  intro fuel
  induction fuel with
  | zero => intro i s hs; exact ⟨i, hs⟩
  | succ n ih =>
    intro i s hs
    rw [verifyLoop]
    by_cases h : i < len
    · rw [if_pos h]
      by_cases hcr : s.profile.credits_find + s.profile.credits_verify < 1
      · rw [if_pos hcr]; exact ⟨i, hA i s h hs⟩
      · rw [if_neg hcr]
        exact ih (i + 1) (verifyIter lookup len i s) (hP i s h hs)
    · rw [if_neg h]; exact ⟨i, hs⟩

theorem batchIter_row_status (lookup : Nat → FindResult) (len bs : Nat) (s : BatchState) :
    (batchIter lookup len bs s).row.status = s.row.status := rfl

theorem batchIter_writes (lookup : Nat → FindResult) (len bs : Nat) (s : BatchState) :
    (batchIter lookup len bs s).writes = s.writes ++ [(batchIter lookup len bs s).row] := rfl

theorem seqIter_row_status (lookup : Nat → FindResult) (i : Nat) (s : SeqState) :
    (seqIter lookup i s).row.status = s.row.status := by
  unfold seqIter
  dsimp only
  split <;> rfl

theorem seqIter_writes_status (lookup : Nat → FindResult) (i : Nat) (s : SeqState) :
    ∀ w ∈ (seqIter lookup i s).writes, w ∈ s.writes ∨ w.status = s.row.status := by
  unfold seqIter
  dsimp only
  split <;> intro w hw <;> simp only [List.mem_append, List.mem_singleton] at hw <;>
    rcases hw with hw | hw
  · exact Or.inl hw
  · subst hw; exact Or.inr rfl
  · rcases hw with hw | hw
    · exact Or.inl hw
    · subst hw; exact Or.inr rfl
  · subst hw; exact Or.inr rfl

theorem verifyIter_row_status (lookup : Nat → VerifyResult) (len i : Nat) (s : VerifyState) :
    (verifyIter lookup len i s).row.status = s.row.status := by
  unfold verifyIter
  dsimp only
  split <;> rfl

theorem verifyIter_writes_status (lookup : Nat → VerifyResult) (len i : Nat) (s : VerifyState) :
    ∀ w ∈ (verifyIter lookup len i s).writes, w ∈ s.writes ∨ w.status = s.row.status := by
  unfold verifyIter
  dsimp only
  split <;> intro w hw
  · simp only [List.mem_append, List.mem_singleton] at hw
    rcases hw with hw | hw
    · exact Or.inl hw
    · subst hw
      split <;> exact Or.inr rfl
  · exact Or.inl hw

theorem verifyAbort_writes (s : VerifyState) :
    (verifyAbort s).writes = s.writes ++ [(verifyAbort s).row] := rfl

theorem verifyAbort_row_status (s : VerifyState) :
    (verifyAbort s).row.status = JobStatus.failed := rfl

/-!  Definitional projection facts about the iteration bodies, used to keep
the loop-invariant proofs readable. -/

theorem batchIter_processedCount (lookup : Nat → FindResult) (len bs : Nat) (s : BatchState) :
    (batchIter lookup len bs s).processedCount =
      s.processedCount + (min (bs + 10) len - bs) := rfl

theorem batchIter_successCount (lookup : Nat → FindResult) (len bs : Nat) (s : BatchState) :
    (batchIter lookup len bs s).successCount =
      s.successCount +
        (processItems lookup (min (bs + 10) len - bs) bs s.requests s.profile).2.2.1 := rfl

theorem batchIter_failedCount (lookup : Nat → FindResult) (len bs : Nat) (s : BatchState) :
    (batchIter lookup len bs s).failedCount =
      s.failedCount +
        (processItems lookup (min (bs + 10) len - bs) bs s.requests s.profile).2.2.2 := rfl

theorem batchIter_totalProcessed (lookup : Nat → FindResult) (len bs : Nat) (s : BatchState) :
    (batchIter lookup len bs s).totalProcessedRequests =
      s.totalProcessedRequests + (min (bs + 10) len - bs) := rfl

theorem batchIter_requests (lookup : Nat → FindResult) (len bs : Nat) (s : BatchState) :
    (batchIter lookup len bs s).requests =
      (processItems lookup (min (bs + 10) len - bs) bs s.requests s.profile).1 := rfl

theorem batchIter_profile (lookup : Nat → FindResult) (len bs : Nat) (s : BatchState) :
    (batchIter lookup len bs s).profile =
      (processItems lookup (min (bs + 10) len - bs) bs s.requests s.profile).2.1 := rfl

theorem batchIter_row_processed (lookup : Nat → FindResult) (len bs : Nat) (s : BatchState) :
    (batchIter lookup len bs s).row.processed_requests =
      s.processedCount + (min (bs + 10) len - bs) := rfl

theorem batchIter_row_successful (lookup : Nat → FindResult) (len bs : Nat) (s : BatchState) :
    (batchIter lookup len bs s).row.successful_finds =
      s.successCount +
        (processItems lookup (min (bs + 10) len - bs) bs s.requests s.profile).2.2.1 := rfl

theorem batchIter_row_failed (lookup : Nat → FindResult) (len bs : Nat) (s : BatchState) :
    (batchIter lookup len bs s).row.failed_finds =
      s.failedCount +
        (processItems lookup (min (bs + 10) len - bs) bs s.requests s.profile).2.2.2 := rfl

theorem batchIter_row_requests_data (lookup : Nat → FindResult) (len bs : Nat) (s : BatchState) :
    (batchIter lookup len bs s).row.requests_data =
      (processItems lookup (min (bs + 10) len - bs) bs s.requests s.profile).1 := rfl

theorem batchIter_row_current_index (lookup : Nat → FindResult) (len bs : Nat) (s : BatchState) :
    (batchIter lookup len bs s).row.current_index = min (bs + 10) len := rfl

theorem verifyAbort_row_processed (s : VerifyState) :
    (verifyAbort s).row.processed_emails = s.processedCount := rfl

theorem verifyAbort_row_successful (s : VerifyState) :
    (verifyAbort s).row.successful_verifications = s.successfulCount := rfl

theorem verifyAbort_row_failed (s : VerifyState) :
    (verifyAbort s).row.failed_verifications = s.failedCount := rfl

theorem verifyAbort_row_emails (s : VerifyState) :
    (verifyAbort s).row.emails_data = s.emails := rfl

theorem verifyAbort_counters (s : VerifyState) :
    (verifyAbort s).processedCount = s.processedCount ∧
    (verifyAbort s).successfulCount = s.successfulCount ∧
    (verifyAbort s).failedCount = s.failedCount ∧
    (verifyAbort s).emails = s.emails ∧
    (verifyAbort s).profile = s.profile ∧
    (verifyAbort s).txns = s.txns := ⟨rfl, rfl, rfl, rfl, rfl, rfl⟩

theorem verifyIter_processedCount (lookup : Nat → VerifyResult) (len i : Nat) (s : VerifyState) :
    (verifyIter lookup len i s).processedCount = s.processedCount + 1 := rfl

theorem verifyIter_successfulCount (lookup : Nat → VerifyResult) (len i : Nat) (s : VerifyState) :
    (verifyIter lookup len i s).successfulCount =
      s.successfulCount + (if (lookup i).status = VerifyStatus.valid then 1 else 0) := rfl

theorem verifyIter_failedCount (lookup : Nat → VerifyResult) (len i : Nat) (s : VerifyState) :
    (verifyIter lookup len i s).failedCount =
      s.failedCount + (if (lookup i).status = VerifyStatus.valid then 0 else 1) := rfl

theorem verifyIter_txns (lookup : Nat → VerifyResult) (len i : Nat) (s : VerifyState) :
    (verifyIter lookup len i s).txns = s.txns ++
      [{ product_type := "email_verify", amount := 0, credits_find_added := -1 }] := rfl

theorem verifyIter_emails_length (lookup : Nat → VerifyResult) (len i : Nat) (s : VerifyState) :
    (verifyIter lookup len i s).emails.length = s.emails.length := by
  simp only [verifyIter]
  exact List.length_set _ _ _

theorem verifyIter_row_processed_of_write (lookup : Nat → VerifyResult) (len i : Nat)
    (s : VerifyState) (h : (s.processedCount + 1) % 10 = 0 ∨ s.processedCount + 1 = len) :
    (verifyIter lookup len i s).row.processed_emails = s.processedCount + 1 ∧
    (verifyIter lookup len i s).row.successful_verifications =
      s.successfulCount + (if (lookup i).status = VerifyStatus.valid then 1 else 0) ∧
    (verifyIter lookup len i s).row.failed_verifications =
      s.failedCount + (if (lookup i).status = VerifyStatus.valid then 0 else 1) ∧
    (verifyIter lookup len i s).row.emails_data.length = s.emails.length := by
  simp [verifyIter, if_pos h]

theorem verifyIter_row_of_nowrite (lookup : Nat → VerifyResult) (len i : Nat)
    (s : VerifyState) (h : ¬((s.processedCount + 1) % 10 = 0 ∨ s.processedCount + 1 = len)) :
    (verifyIter lookup len i s).row = s.row := by
  simp only [verifyIter, if_neg h]

theorem verifyIter_writes_of_write (lookup : Nat → VerifyResult) (len i : Nat)
    (s : VerifyState) (h : (s.processedCount + 1) % 10 = 0 ∨ s.processedCount + 1 = len) :
    (verifyIter lookup len i s).writes =
      s.writes ++ [(verifyIter lookup len i s).row] := by
  simp only [verifyIter, if_pos h]

theorem verifyIter_writes_of_nowrite (lookup : Nat → VerifyResult) (len i : Nat)
    (s : VerifyState) (h : ¬((s.processedCount + 1) % 10 = 0 ∨ s.processedCount + 1 = len)) :
    (verifyIter lookup len i s).writes = s.writes := by
  simp only [verifyIter, if_neg h]

theorem batchLoop_requests_frame (lookup : Nat → FindResult) (ext : Nat → JobStatus)
    (len : Nat) :
    ∀ fuel bs s i, i < bs →
      (batchLoop lookup ext len fuel bs s).requests.get? i = s.requests.get? i := by
  intro fuel
  induction fuel with
  | zero => intro bs s i hi; rfl
  | succ n ih =>
    intro bs s i hi
    rw [batchLoop]
    by_cases h : bs < len
    · rw [if_pos h]
      by_cases hstop : ext bs = JobStatus.failed ∨ ext bs = JobStatus.paused
      · rw [if_pos hstop]
      · rw [if_neg hstop]
        rw [ih (min (bs + 10) len) _ i (lt_of_lt_of_le hi (le_min (by omega) (by omega)))]
        · rw [batchIter_requests]
          exact processItems_get_out lookup _ bs s.requests s.profile i (Or.inl hi)
    · rw [if_neg h]

theorem batchLoop_no_stop_terminal (lookup : Nat → FindResult) (ext : Nat → JobStatus)
    (len : Nat) (hext : ∀ b, ¬(ext b = JobStatus.failed ∨ ext b = JobStatus.paused)) :
    ∀ fuel bs s, len - bs ≤ fuel → s.requests.length = len →
      ∀ i, bs ≤ i → i < len →
        ∃ r, (batchLoop lookup ext len fuel bs s).requests.get? i = some r ∧
          (r.status = ItemStatus.completed ∨ r.status = ItemStatus.failed) := by
  intro fuel
  induction fuel with
  | zero => intro bs s hf hl i h1 h2; omega
  | succ n ih =>
    intro bs s hf hl i h1 h2
    have hbs : bs < len := by omega
    rw [batchLoop, if_pos hbs, if_neg (hext bs)]
    by_cases hin : i < min (bs + 10) len
    · rw [batchLoop_requests_frame lookup ext len n _ _ i hin, batchIter_requests]
      exact processItems_get_in lookup _ bs s.requests s.profile i h1 (by omega)
        (by omega)
    · refine ih (min (bs + 10) len) (batchIter lookup len bs s) (by omega) ?_ i
        (by omega) h2
      rw [batchIter_requests, processItems_length]
      exact hl

/-!  ## Claims  -/

/-- C1, counterexample: submitting 3 find-items against an account holding
exactly 2 findCredits (and any number of verifyCredits — the gate never reads
the verify pool) is REJECTED with the shortfall message, not admitted as the
claim states. -/
theorem submit_two_find_five_verify_three_items_rejected :
    submitBulkFinderJob true false 2 (List.replicate 3 ({} : FindItem)) =
      SubmitResult.rejected
        "You need 3 Find Credits but only have 2. Please purchase more credits." := by
  rfl

/-- C1 (amended): the Job Submission Gate admits a non-empty find job iff the
caller is authenticated, the plan is not expired, and the FIND pool alone
holds at least `len(inputs)` credits (and is non-zero); the verify pool is not
consulted.  An admitted job is created in Pending status with zeroed counters,
and a rejection for insufficient credits reports the required and available
find credits. -/
theorem submitBulkFinderJob_admission (authed planExpired : Bool) (cf : Int)
    (requests : List FindItem) (hne : requests.length ≠ 0) :
    ((submitBulkFinderJob authed planExpired cf requests).isAdmitted = true ↔
      (authed = true ∧ planExpired = false ∧ cf ≠ 0 ∧ (requests.length : Int) ≤ cf))
    ∧ (∀ job, submitBulkFinderJob authed planExpired cf requests = .admitted job →
        job.status = .pending ∧ job.processed_requests = 0 ∧
        job.successful_finds = 0 ∧ job.failed_finds = 0 ∧ job.current_index = 0)
    ∧ (authed = true → planExpired = false → cf ≠ 0 → cf < (requests.length : Int) →
        submitBulkFinderJob authed planExpired cf requests =
          SubmitResult.rejected ("You need " ++ toString ((requests.length : Int)) ++
            " Find Credits but only have " ++ toString cf ++
            ". Please purchase more credits.")) := by
  refine ⟨?_, ?_, ?_⟩
  · simp only [submitBulkFinderJob]
    split_ifs with h1 h2 h3 h4 h5 <;>
      simp_all [SubmitResult.isAdmitted] <;> omega
  · intro job h
    simp only [submitBulkFinderJob] at h
    split_ifs at h <;> simp_all
    subst h
    exact ⟨rfl, rfl, rfl, rfl, rfl⟩
  · intro ha hp hz hlt
    simp only [submitBulkFinderJob]
    split_ifs <;> simp_all <;> omega

/-- C1 witness: with 3 find credits and no plan expiry, a 3-item submission is
admitted as a pending job; with only 2 find credits it is rejected with the
shortfall message. -/
theorem submitBulkFinderJob_admission_witness :
    ((submitBulkFinderJob true false 3 (List.replicate 3 ({} : FindItem))).isAdmitted = true) ∧
    (submitBulkFinderJob true false 2 (List.replicate 3 ({} : FindItem)) =
      SubmitResult.rejected
        "You need 3 Find Credits but only have 2. Please purchase more credits.") := by
  have h := submitBulkFinderJob_admission true false 3 (List.replicate 3 ({} : FindItem))
    (by decide)
  have h2 := submitBulkFinderJob_admission true false 2 (List.replicate 3 ({} : FindItem))
    (by decide)
  refine ⟨h.1.mpr ⟨rfl, rfl, by decide, by decide⟩, ?_⟩
  have := h2.2.2 rfl rfl (by decide) (by decide)
  simpa using this

/-- C3: the executors' check-and-debit is a non-atomic read-then-write; under
the interleaving read₀, read₁, write₀, write₁ two concurrent callers against a
balance of 1 total credit (findCredits = 1, verifyCredits = 0) BOTH report a
successful 1-credit debit — 2 successes against balance 1 — while the final
balance drops only to 0, so the balance is overdrawn and a debit is lost. -/
theorem checkAndDebit_race_overdraws :
    (runDebitSchedule [0, 1, 0, 1] ⟨1, 0⟩ [{}, {}]).1 = ⟨0, 0⟩ ∧
    debitSuccesses (runDebitSchedule [0, 1, 0, 1] ⟨1, 0⟩ [{}, {}]).2 = 2 ∧
    1 < debitSuccesses (runDebitSchedule [0, 1, 0, 1] ⟨1, 0⟩ [{}, {}]).2 := by
  refine ⟨rfl, rfl, by norm_num [runDebitSchedule, debitStep, debitSuccesses]⟩

/-- C10: no modeled operation ever assigns the status `paused`: the finder and
verify Stop actions write `failed` with the message `Job manually stopped by
user`, admission creates jobs as `pending`, the recovery daemon rewrites stale
processing jobs to `pending`, and every job-row state persisted by any of the
three executors has a status other than `paused`. -/
theorem no_operation_assigns_paused :
    (∀ job, (stopBulkFinderJob job).status = JobStatus.failed ∧
      (stopBulkFinderJob job).error_message = some "Job manually stopped by user")
    ∧ (∀ job, job.status = JobStatus.processing →
        (stopBulkVerificationJob job).status = JobStatus.failed ∧
        (stopBulkVerificationJob job).error_message = some "Job manually stopped by user")
    ∧ (∀ a p cf reqs j, submitBulkFinderJob a p cf reqs = SubmitResult.admitted j →
        j.status = JobStatus.pending)
    ∧ (∀ now jobs jt, jt ∈ recoverStuckJobs now jobs →
        jt ∈ jobs ∨ jt.1.status = JobStatus.pending)
    ∧ (∀ lookup ext job profile,
        ∀ w ∈ (processJobInBackgroundBatch lookup ext job profile).writes,
          w.status ≠ JobStatus.paused)
    ∧ (∀ lookup ext job profile,
        ∀ w ∈ (processJobInBackgroundSeq lookup ext job profile).writes,
          w.status ≠ JobStatus.paused)
    ∧ (∀ lookup job profile,
        ∀ w ∈ (processVerifyJob lookup job profile).writes,
          w.status ≠ JobStatus.paused) := by
  refine ⟨fun job => ⟨rfl, rfl⟩, ?_, ?_, ?_, ?_, ?_, ?_⟩
  · intro job h
    simp [stopBulkVerificationJob, h]
  · intro a p cf reqs j h
    simp only [submitBulkFinderJob] at h
    split_ifs at h <;> simp_all
    rw [← h]
  · intro now jobs jt hjt
    simp only [recoverStuckJobs, List.mem_map] at hjt
    obtain ⟨x, hx, hfx⟩ := hjt
    by_cases hc : x.1.status = JobStatus.processing ∧ x.2 < now - 30 * 60 * 1000
    · right
      rw [if_pos hc] at hfx
      rw [← hfx]
    · left
      rw [if_neg hc] at hfx
      rw [← hfx]
      exact hx
  · intro lookup ext job profile w hw
    simp only [processJobInBackgroundBatch, List.mem_append, List.mem_singleton] at hw
    have hinv := batchLoop_inv lookup ext job.requests_data.length
      (fun s => (∀ x ∈ s.writes, x.status ≠ JobStatus.paused) ∧
        s.row.status ≠ JobStatus.paused)
      (by
        intro bs s hbs ⟨hws, hrow⟩
        refine ⟨?_, ?_⟩
        · rw [batchIter_writes]
          intro x hx
          rcases List.mem_append.mp hx with hx | hx
          · exact hws x hx
          · rw [List.mem_singleton.mp hx, batchIter_row_status]
            exact hrow
        · rw [batchIter_row_status]; exact hrow)
      (job.requests_data.length + 1) job.current_index
      { requests := job.requests_data, profile := profile,
        processedCount := job.processed_requests, successCount := job.successful_finds,
        failedCount := job.failed_finds, totalProcessedRequests := 0,
        row := { job with status := JobStatus.processing },
        writes := [{ job with status := JobStatus.processing }] }
      (by
        refine ⟨?_, ?_⟩
        · intro x hx
          rw [List.mem_singleton.mp hx]
          intro hcontra
          exact absurd hcontra (by simp)
        · simp)
    rcases hw with hw | hw
    · exact hinv.1 w hw
    · rw [hw]
      intro hcontra
      exact absurd hcontra (by simp)
  · intro lookup ext job profile w hw
    simp only [processJobInBackgroundSeq, List.mem_append, List.mem_singleton] at hw
    have hinv := seqLoop_inv lookup ext job.requests_data.length
      (fun s => (∀ x ∈ s.writes, x.status ≠ JobStatus.paused) ∧
        s.row.status ≠ JobStatus.paused)
      (by
        intro i s hi ⟨hws, hrow⟩
        refine ⟨?_, ?_⟩
        · intro x hx
          rcases seqIter_writes_status lookup i s x hx with hx2 | hx2
          · exact hws x hx2
          · rw [hx2]; exact hrow
        · rw [seqIter_row_status]; exact hrow)
      (job.requests_data.length + 1) job.current_index
      { requests := job.requests_data, profile := profile,
        processedCount := job.processed_requests, successCount := job.successful_finds,
        failedCount := job.failed_finds, totalProcessedRequests := 0,
        row := { job with status := JobStatus.processing },
        writes := [{ job with status := JobStatus.processing }] }
      (by
        refine ⟨?_, ?_⟩
        · intro x hx
          rw [List.mem_singleton.mp hx]
          intro hcontra
          exact absurd hcontra (by simp)
        · simp)
    rcases hw with hw | hw
    · exact hinv.1 w hw
    · rw [hw]
      intro hcontra
      exact absurd hcontra (by simp)
  · intro lookup job profile w hw
    have hinv := verifyLoop_inv lookup job.emails_data.length
      (fun s => (∀ x ∈ s.writes, x.status ≠ JobStatus.paused) ∧
        s.row.status ≠ JobStatus.paused)
      (by
        intro s ⟨hws, hrow⟩
        refine ⟨?_, ?_⟩
        · rw [verifyAbort_writes]
          intro x hx
          rcases List.mem_append.mp hx with hx | hx
          · exact hws x hx
          · rw [List.mem_singleton.mp hx, verifyAbort_row_status]
            intro hcontra
            exact absurd hcontra (by simp)
        · rw [verifyAbort_row_status]
          intro hcontra
          exact absurd hcontra (by simp))
      (by
        intro i s hi ⟨hws, hrow⟩
        refine ⟨?_, ?_⟩
        · intro x hx
          rcases verifyIter_writes_status lookup job.emails_data.length i s x hx with hx2 | hx2
          · exact hws x hx2
          · rw [hx2]; exact hrow
        · rw [verifyIter_row_status]; exact hrow)
      (job.emails_data.length + 1) job.processed_emails
      { emails := job.emails_data, profile := profile,
        processedCount := job.processed_emails, successfulCount := job.successful_verifications,
        failedCount := job.failed_verifications,
        row := { job with status := JobStatus.processing },
        writes := [{ job with status := JobStatus.processing }], txns := [] }
      (by
        refine ⟨?_, ?_⟩
        · intro x hx
          rw [List.mem_singleton.mp hx]
          intro hcontra
          exact absurd hcontra (by simp)
        · simp)
    simp only [processVerifyJob] at hw
    split_ifs at hw
    · exact hinv.1 w hw
    · rcases List.mem_append.mp hw with hw | hw
      · exact hinv.1 w hw
      · rw [List.mem_singleton.mp hw]
        intro hcontra
        exact absurd hcontra (by simp)

/-- C10 witness: the verify Stop action applied to a concrete processing job
yields status failed (discharging the processing hypothesis), and the first
row persisted by a concrete batch executor run has a non-paused status
(discharging the membership hypothesis). -/
theorem no_operation_assigns_paused_witness :
    (stopBulkVerificationJob
      { status := JobStatus.processing
        total_emails := 1
        processed_emails := 0
        successful_verifications := 0
        failed_verifications := 0
        emails_data := [{}] }).status = JobStatus.failed ∧
    (processJobInBackgroundBatch (fun _ => { status := FindStatus.error })
        (fun _ => JobStatus.processing)
        { status := JobStatus.pending
          total_requests := 1
          processed_requests := 0
          successful_finds := 0
          failed_finds := 0
          requests_data := [{}]
          current_index := 0 } ⟨1, 0⟩).writes.head!.status ≠ JobStatus.paused := by
  refine ⟨(no_operation_assigns_paused.2.1 _ rfl).1, ?_⟩
  apply no_operation_assigns_paused.2.2.2.2.1
  exact List.head!_mem_self (by decide)

/-- C8: for an item whose per-item credit check succeeds (combined balance at
least 1, pools non-negative), exactly 1 credit leaves the account regardless
of the lookup outcome — the batch finder item step debits before the lookup
and keeps the debit on any result, and the verify item step debits for every
result status including `error`.  The account is charged per attempt. -/
theorem credit_debited_per_attempt (profile : Profile) (req : FindItem)
    (result : FindResult) (lookup : Nat → VerifyResult) (len i : Nat)
    (s : VerifyState)
    (hf : 0 ≤ profile.credits_find) (hv : 0 ≤ profile.credits_verify)
    (h1 : 1 ≤ profile.credits_find + profile.credits_verify)
    (hf2 : 0 ≤ s.profile.credits_find) (hv2 : 0 ≤ s.profile.credits_verify)
    (h2 : 1 ≤ s.profile.credits_find + s.profile.credits_verify) :
    ((processBatchItem profile req result).2.1.credits_find +
      (processBatchItem profile req result).2.1.credits_verify =
      profile.credits_find + profile.credits_verify - 1) ∧
    ((verifyIter lookup len i s).profile.credits_find +
      (verifyIter lookup len i s).profile.credits_verify =
      s.profile.credits_find + s.profile.credits_verify - 1) := by
  constructor
  · simp only [processBatchItem]
    split_ifs <;> simp_all <;> omega
  · simp only [verifyIter]
    split_ifs <;> simp_all <;> omega

/-- C8 witness: with 1 verify credit and 0 find credits a finder item whose
lookup errors still ends with a total balance of 0, and with 1 find credit
and 0 verify credits a verify item whose lookup errors also ends at 0. -/
theorem credit_debited_per_attempt_witness :
    (processBatchItem ⟨0, 1⟩ {} { status := FindStatus.error }).2.1.credits_find +
      (processBatchItem ⟨0, 1⟩ {} { status := FindStatus.error }).2.1.credits_verify = 0 ∧
    (verifyIter (fun _ => { status := VerifyStatus.error }) 1 0
        { emails := [{}], profile := ⟨1, 0⟩, processedCount := 0, successfulCount := 0,
          failedCount := 0, row := default, writes := [], txns := [] }).profile.credits_find +
      (verifyIter (fun _ => { status := VerifyStatus.error }) 1 0
        { emails := [{}], profile := ⟨1, 0⟩, processedCount := 0, successfulCount := 0,
          failedCount := 0, row := default, writes := [], txns := [] }).profile.credits_verify = 0 := by
  have h := credit_debited_per_attempt ⟨0, 1⟩ {} { status := FindStatus.error }
    (fun _ => { status := VerifyStatus.error }) 1 0
    { emails := [{}], profile := ⟨1, 0⟩, processedCount := 0, successfulCount := 0,
      failedCount := 0, row := default, writes := [], txns := [] }
    (by decide) (by decide) (by decide) (by decide) (by decide) (by decide)
  exact ⟨by rw [h.1]; decide, by rw [h.2]; decide⟩

/-- C2: starting from a consistent job row (counters satisfying the invariant,
`processed = current_index` for the batch executor), every job-row state
persisted by the batch finder executor and by the bulk-verify executor
satisfies `processedCount = successCount + failedCount` and
`processedCount ≤ len(items)`. -/
theorem checkpoint_counter_invariant :
    (∀ lookup ext job profile,
      job.processed_requests = job.successful_finds + job.failed_finds →
      job.processed_requests = job.current_index →
      job.current_index ≤ job.requests_data.length →
      ∀ w ∈ (processJobInBackgroundBatch lookup ext job profile).writes,
        w.processed_requests = w.successful_finds + w.failed_finds ∧
        w.processed_requests ≤ w.requests_data.length)
    ∧ (∀ lookup job profile,
        job.processed_emails = job.successful_verifications + job.failed_verifications →
        job.processed_emails ≤ job.emails_data.length →
        ∀ w ∈ (processVerifyJob lookup job profile).writes,
          w.processed_emails = w.successful_verifications + w.failed_verifications ∧
          w.processed_emails ≤ w.emails_data.length) := by
  constructor
  · intro lookup ext job profile hsum hpc hcl w hw
    simp only [processJobInBackgroundBatch, List.mem_append, List.mem_singleton] at hw
    have hinv := batchLoop_inv2 lookup ext job.requests_data.length
      (fun bs s =>
        s.processedCount = s.successCount + s.failedCount ∧
        s.processedCount + (job.requests_data.length - bs) ≤ job.requests_data.length ∧
        s.requests.length = job.requests_data.length ∧
        (s.row.processed_requests = s.row.successful_finds + s.row.failed_finds ∧
          s.row.processed_requests ≤ s.row.requests_data.length) ∧
        (∀ x ∈ s.writes, x.processed_requests = x.successful_finds + x.failed_finds ∧
          x.processed_requests ≤ x.requests_data.length))
      (by
        intro bs s hbs _hstop hPs
        obtain ⟨h1, h2, h3, ⟨h4a, h4b⟩, h5⟩ := hPs
        have hcnt := processItems_counts lookup
          (min (bs + 10) job.requests_data.length - bs) bs s.requests s.profile
        have hlen := processItems_length lookup
          (min (bs + 10) job.requests_data.length - bs) bs s.requests s.profile
        have hm1 : min (bs + 10) job.requests_data.length ≤ job.requests_data.length :=
          min_le_right _ _
        have hm2 : bs ≤ min (bs + 10) job.requests_data.length :=
          le_min (by omega) (by omega)
        refine ⟨?_, ?_, ?_, ⟨?_, ?_⟩, ?_⟩
        · rw [batchIter_processedCount, batchIter_successCount, batchIter_failedCount]
          omega
        · rw [batchIter_processedCount]
          omega
        · rw [batchIter_requests, hlen]
          exact h3
        · rw [batchIter_row_processed, batchIter_row_successful, batchIter_row_failed]
          omega
        · rw [batchIter_row_processed, batchIter_row_requests_data, hlen, h3]
          omega
        · rw [batchIter_writes]
          intro x hx
          rcases List.mem_append.mp hx with hx | hx
          · exact h5 x hx
          · rw [List.mem_singleton.mp hx]
            constructor
            · rw [batchIter_row_processed, batchIter_row_successful, batchIter_row_failed]
              omega
            · rw [batchIter_row_processed, batchIter_row_requests_data, hlen, h3]
              omega)
      (job.requests_data.length + 1) job.current_index
      { requests := job.requests_data, profile := profile,
        processedCount := job.processed_requests, successCount := job.successful_finds,
        failedCount := job.failed_finds, totalProcessedRequests := 0,
        row := { job with status := JobStatus.processing },
        writes := [{ job with status := JobStatus.processing }] }
      (by
        refine ⟨hsum, ?_, rfl, ⟨hsum, ?_⟩, ?_⟩
        · show job.processed_requests + (job.requests_data.length - job.current_index) ≤
            job.requests_data.length
          omega
        · show job.processed_requests ≤ job.requests_data.length
          omega
        · intro x hx
          rw [List.mem_singleton.mp hx]
          exact ⟨hsum, by show job.processed_requests ≤ job.requests_data.length; omega⟩)
    obtain ⟨bs2, hfin⟩ := hinv
    rcases hw with hw | hw
    · exact hfin.2.2.2.2 w hw
    · rw [hw]
      exact hfin.2.2.2.1
  · intro lookup job profile hsum hle w hw
    have hinv := verifyLoop_inv2 lookup job.emails_data.length
      (fun i s =>
        s.processedCount = s.successfulCount + s.failedCount ∧
        s.processedCount = i ∧
        s.processedCount ≤ job.emails_data.length ∧
        s.emails.length = job.emails_data.length ∧
        (s.row.processed_emails = s.row.successful_verifications + s.row.failed_verifications ∧
          s.row.processed_emails ≤ s.row.emails_data.length) ∧
        (∀ x ∈ s.writes, x.processed_emails = x.successful_verifications + x.failed_verifications ∧
          x.processed_emails ≤ x.emails_data.length))
      (by
        intro i s hi hPs
        obtain ⟨h1, h2, h3, h4, ⟨h5a, h5b⟩, h6⟩ := hPs
        refine ⟨h1, h2, h3, ?_, ⟨?_, ?_⟩, ?_⟩
        · exact (verifyAbort_counters s).2.2.2.1 ▸ h4
        · rw [verifyAbort_row_processed, verifyAbort_row_successful, verifyAbort_row_failed]
          exact h1
        · rw [verifyAbort_row_processed, verifyAbort_row_emails]
          omega
        · rw [verifyAbort_writes]
          intro x hx
          rcases List.mem_append.mp hx with hx | hx
          · exact h6 x hx
          · rw [List.mem_singleton.mp hx]
            constructor
            · rw [verifyAbort_row_processed, verifyAbort_row_successful,
                verifyAbort_row_failed]
              exact h1
            · rw [verifyAbort_row_processed, verifyAbort_row_emails]
              omega)
      (by
        intro i s hi hPs
        obtain ⟨h1, h2, h3, h4, ⟨h5a, h5b⟩, h6⟩ := hPs
        refine ⟨?_, ?_, ?_, ?_, ?_, ?_⟩
        · rw [verifyIter_processedCount, verifyIter_successfulCount, verifyIter_failedCount]
          split_ifs <;> omega
        · rw [verifyIter_processedCount]
          omega
        · rw [verifyIter_processedCount]
          omega
        · rw [verifyIter_emails_length]
          exact h4
        · by_cases hwr : (s.processedCount + 1) % 10 = 0 ∨
            s.processedCount + 1 = job.emails_data.length
          · obtain ⟨e1, e2, e3, e4⟩ :=
              verifyIter_row_processed_of_write lookup job.emails_data.length i s hwr
            refine ⟨?_, ?_⟩
            · rw [e1, e2, e3]
              split_ifs <;> omega
            · rw [e1, e4, h4]
              omega
          · rw [verifyIter_row_of_nowrite lookup job.emails_data.length i s hwr]
            exact ⟨h5a, h5b⟩
        · by_cases hwr : (s.processedCount + 1) % 10 = 0 ∨
            s.processedCount + 1 = job.emails_data.length
          · rw [verifyIter_writes_of_write lookup job.emails_data.length i s hwr]
            intro x hx
            rcases List.mem_append.mp hx with hx | hx
            · exact h6 x hx
            · rw [List.mem_singleton.mp hx]
              obtain ⟨e1, e2, e3, e4⟩ :=
                verifyIter_row_processed_of_write lookup job.emails_data.length i s hwr
              refine ⟨?_, ?_⟩
              · rw [e1, e2, e3]
                split_ifs <;> omega
              · rw [e1, e4, h4]
                omega
          · rw [verifyIter_writes_of_nowrite lookup job.emails_data.length i s hwr]
            exact h6)
      (job.emails_data.length + 1) job.processed_emails
      { emails := job.emails_data, profile := profile,
        processedCount := job.processed_emails,
        successfulCount := job.successful_verifications,
        failedCount := job.failed_verifications,
        row := { job with status := JobStatus.processing },
        writes := [{ job with status := JobStatus.processing }], txns := [] }
      (by
        refine ⟨hsum, rfl, hle, rfl, ⟨hsum, hle⟩, ?_⟩
        intro x hx
        rw [List.mem_singleton.mp hx]
        exact ⟨hsum, hle⟩)
    obtain ⟨i2, hfin⟩ := hinv
    simp only [processVerifyJob] at hw
    set t := verifyLoop lookup job.emails_data.length (job.emails_data.length + 1)
      job.processed_emails
      { emails := job.emails_data, profile := profile,
        processedCount := job.processed_emails,
        successfulCount := job.successful_verifications,
        failedCount := job.failed_verifications,
        row := { job with status := JobStatus.processing },
        writes := [{ job with status := JobStatus.processing }], txns := [] } with ht
    split_ifs at hw
    · exact hfin.2.2.2.2.2 w hw
    · rcases List.mem_append.mp hw with hw | hw
      · exact hfin.2.2.2.2.2 w hw
      · rw [List.mem_singleton.mp hw]
        refine ⟨?_, ?_⟩
        · show t.processedCount = t.successfulCount + t.failedCount
          exact hfin.1
        · show t.processedCount ≤ t.emails.length
          have h3 := hfin.2.2.1
          have h4 := hfin.2.2.2.1
          omega

/-- C2 witness: the counters of the first row persisted by a concrete batch
executor run, and by a concrete bulk-verify run, satisfy the invariant. -/
theorem checkpoint_counter_invariant_witness :
    ((processJobInBackgroundBatch (fun _ => { status := FindStatus.valid, email := some "a@b.c" })
        (fun _ => JobStatus.processing)
        { status := JobStatus.pending
          total_requests := 2
          processed_requests := 0
          successful_finds := 0
          failed_finds := 0
          requests_data := [{}, {}]
          current_index := 0 } ⟨2, 0⟩).writes.head!.processed_requests =
      (processJobInBackgroundBatch (fun _ => { status := FindStatus.valid, email := some "a@b.c" })
        (fun _ => JobStatus.processing)
        { status := JobStatus.pending
          total_requests := 2
          processed_requests := 0
          successful_finds := 0
          failed_finds := 0
          requests_data := [{}, {}]
          current_index := 0 } ⟨2, 0⟩).writes.head!.successful_finds +
      (processJobInBackgroundBatch (fun _ => { status := FindStatus.valid, email := some "a@b.c" })
        (fun _ => JobStatus.processing)
        { status := JobStatus.pending
          total_requests := 2
          processed_requests := 0
          successful_finds := 0
          failed_finds := 0
          requests_data := [{}, {}]
          current_index := 0 } ⟨2, 0⟩).writes.head!.failed_finds) ∧
    ((processVerifyJob (fun _ => { status := VerifyStatus.valid })
        { status := JobStatus.pending
          total_emails := 1
          processed_emails := 0
          successful_verifications := 0
          failed_verifications := 0
          emails_data := [{}] } ⟨1, 0⟩).writes.head!.processed_emails ≤
      (processVerifyJob (fun _ => { status := VerifyStatus.valid })
        { status := JobStatus.pending
          total_emails := 1
          processed_emails := 0
          successful_verifications := 0
          failed_verifications := 0
          emails_data := [{}] } ⟨1, 0⟩).writes.head!.emails_data.length) := by
  constructor
  · exact (checkpoint_counter_invariant.1 _ _ _ _ rfl rfl (by decide) _
      (List.head!_mem_self (by decide))).1
  · exact (checkpoint_counter_invariant.2 _ _ _ rfl (by decide) _
      (List.head!_mem_self (by decide))).2

/-- Through one sequential-executor iteration, the combined balance plus the
running `totalProcessedRequests` counter is conserved: the counter is
incremented exactly when 1 credit is debited. -/
theorem seqIter_balance (lookup : Nat → FindResult) (i : Nat) (s : SeqState) :
    (seqIter lookup i s).profile.credits_find + (seqIter lookup i s).profile.credits_verify +
      ((seqIter lookup i s).totalProcessedRequests : Int) =
    s.profile.credits_find + s.profile.credits_verify +
      (s.totalProcessedRequests : Int) := by
  unfold seqIter
  dsimp only
  split_ifs <;> dsimp only <;> push_cast <;> omega

/-- C4 (amended, finder part): each finder executor run that processed at
least one item inserts exactly one `credit_transactions` row with
`amount = -totalProcessedRequests`; for the batch executor that counter equals
the number of items processed in the run (final `processed_requests` minus the
initial one, items failing the credit check included), while for the
sequential executor it equals the number of credits actually debited (the
final combined balance is the initial one minus the recorded amount). -/
theorem finder_run_single_ledger_row (lookup : Nat → FindResult)
    (ext : Nat → JobStatus) (job : FinderJob) (profile : Profile) :
    ((0 < (processJobInBackgroundBatch lookup ext job profile).totalProcessedRequests →
      (processJobInBackgroundBatch lookup ext job profile).ledgerInserts =
        [{ amount := -((processJobInBackgroundBatch lookup ext job profile).totalProcessedRequests : Int),
           operation := "email_find",
           meta_total_requests := (processJobInBackgroundBatch lookup ext job profile).totalProcessedRequests }]) ∧
      (processJobInBackgroundBatch lookup ext job profile).row.processed_requests =
        job.processed_requests + (processJobInBackgroundBatch lookup ext job profile).totalProcessedRequests)
    ∧ ((0 < (processJobInBackgroundSeq lookup ext job profile).totalProcessedRequests →
      (processJobInBackgroundSeq lookup ext job profile).ledgerInserts =
        [{ amount := -((processJobInBackgroundSeq lookup ext job profile).totalProcessedRequests : Int),
           operation := "email_find",
           meta_total_requests := (processJobInBackgroundSeq lookup ext job profile).totalProcessedRequests }]) ∧
      (processJobInBackgroundSeq lookup ext job profile).profile.credits_find +
        (processJobInBackgroundSeq lookup ext job profile).profile.credits_verify =
        profile.credits_find + profile.credits_verify -
          ((processJobInBackgroundSeq lookup ext job profile).totalProcessedRequests : Int)) := by
  constructor
  · have hinv := batchLoop_inv lookup ext job.requests_data.length
      (fun s => s.row.processed_requests = s.processedCount ∧
        s.processedCount = job.processed_requests + s.totalProcessedRequests)
      (by
        intro bs s hbs ⟨h1, h2⟩
        constructor
        · rw [batchIter_row_processed, batchIter_processedCount]
        · rw [batchIter_processedCount, batchIter_totalProcessed]
          omega)
      (job.requests_data.length + 1) job.current_index
      { requests := job.requests_data, profile := profile,
        processedCount := job.processed_requests, successCount := job.successful_finds,
        failedCount := job.failed_finds, totalProcessedRequests := 0,
        row := { job with status := JobStatus.processing },
        writes := [{ job with status := JobStatus.processing }] }
      ⟨rfl, rfl⟩
    set t := batchLoop lookup ext job.requests_data.length
      (job.requests_data.length + 1) job.current_index
      { requests := job.requests_data, profile := profile,
        processedCount := job.processed_requests, successCount := job.successful_finds,
        failedCount := job.failed_finds, totalProcessedRequests := 0,
        row := { job with status := JobStatus.processing },
        writes := [{ job with status := JobStatus.processing }] } with ht
    constructor
    · intro hpos
      have hpos2 : 0 < t.totalProcessedRequests := hpos
      show (if t.totalProcessedRequests > 0 then
          [{ amount := -(t.totalProcessedRequests : Int), operation := "email_find",
             meta_total_requests := t.totalProcessedRequests }]
        else ([] : List CreditTxn)) = _
      rw [if_pos hpos2]
      rfl
    · show t.row.processed_requests = job.processed_requests + t.totalProcessedRequests
      rw [hinv.1, hinv.2]
  · have hinv := seqLoop_inv lookup ext job.requests_data.length
      (fun s => s.profile.credits_find + s.profile.credits_verify +
        (s.totalProcessedRequests : Int) =
        profile.credits_find + profile.credits_verify + (0 : Int))
      (by
        intro i s hi h
        rw [seqIter_balance]
        exact h)
      (job.requests_data.length + 1) job.current_index
      { requests := job.requests_data, profile := profile,
        processedCount := job.processed_requests, successCount := job.successful_finds,
        failedCount := job.failed_finds, totalProcessedRequests := 0,
        row := { job with status := JobStatus.processing },
        writes := [{ job with status := JobStatus.processing }] }
      (by push_cast; ring)
    set t := seqLoop lookup ext job.requests_data.length
      (job.requests_data.length + 1) job.current_index
      { requests := job.requests_data, profile := profile,
        processedCount := job.processed_requests, successCount := job.successful_finds,
        failedCount := job.failed_finds, totalProcessedRequests := 0,
        row := { job with status := JobStatus.processing },
        writes := [{ job with status := JobStatus.processing }] } with ht
    constructor
    · intro hpos
      have hpos2 : 0 < t.totalProcessedRequests := hpos
      show (if t.totalProcessedRequests > 0 then
          [{ amount := -(t.totalProcessedRequests : Int), operation := "email_find",
             meta_total_requests := t.totalProcessedRequests }]
        else ([] : List CreditTxn)) = _
      rw [if_pos hpos2]
      rfl
    · show t.profile.credits_find + t.profile.credits_verify =
        profile.credits_find + profile.credits_verify - (t.totalProcessedRequests : Int)
      have hb := hinv
      omega

/-- C4 witness: a concrete sequential run over 2 items with 2 find credits
records exactly one ledger row of amount -2, and the final balance is 0. -/
theorem finder_run_single_ledger_row_witness :
    (processJobInBackgroundSeq (fun _ => { status := FindStatus.error })
      (fun _ => JobStatus.processing)
      { status := JobStatus.pending
        total_requests := 2
        processed_requests := 0
        successful_finds := 0
        failed_finds := 0
        requests_data := [{}, {}]
        current_index := 0 } ⟨2, 0⟩).ledgerInserts =
      [{ amount := -2, operation := "email_find", meta_total_requests := 2 }] := by
  have h := (finder_run_single_ledger_row (fun _ => { status := FindStatus.error })
    (fun _ => JobStatus.processing)
    { status := JobStatus.pending
      total_requests := 2
      processed_requests := 0
      successful_finds := 0
      failed_finds := 0
      requests_data := [{}, {}]
      current_index := 0 } ⟨2, 0⟩).2.1 (by decide)
  rw [h]
  decide

/-- C4 counterexample: the bulk-verify executor records one `transactions` row
PER ITEM, not one per run: a concrete run over 2 emails with ample credits
inserts 2 ledger rows. -/
theorem verify_run_inserts_per_item_ledger_rows :
    (processVerifyJob (fun _ => { status := VerifyStatus.valid })
      { status := JobStatus.pending
        total_emails := 2
        processed_emails := 0
        successful_verifications := 0
        failed_verifications := 0
        emails_data := [{}, {}] } ⟨5, 5⟩).txnInserts.length = 2 := by decide

/-- C5, counterexample: the bulk-verify executor never re-reads the job's
persisted status: a job externally marked `paused` is processed to the end
anyway — both of its 2 items are verified and the paused status is overwritten
with `completed`, where the claim requires the executor to stop with no
further items processed. -/
theorem verify_executor_ignores_external_stop :
    (processVerifyJob (fun _ => { status := VerifyStatus.valid })
      { status := JobStatus.paused
        total_emails := 2
        processed_emails := 0
        successful_verifications := 0
        failed_verifications := 0
        emails_data := [{}, {}] } ⟨5, 5⟩).row.processed_emails = 2 ∧
    (processVerifyJob (fun _ => { status := VerifyStatus.valid })
      { status := JobStatus.paused
        total_emails := 2
        processed_emails := 0
        successful_verifications := 0
        failed_verifications := 0
        emails_data := [{}, {}] } ⟨5, 5⟩).row.status = JobStatus.completed := by
  constructor <;> rfl

/-- C5 (amended): the BATCH finder executor does re-read the persisted status
before each batch and stops on failed/paused: if the re-read at batch boundary
`current_index + 10 * m` reports failed or paused, every item at or beyond
that boundary is left untouched by the whole run.  (The bulk-verify executor
performs no such re-read, see the counterexample.) -/
theorem batch_executor_stops_on_stop_signal (lookup : Nat → FindResult)
    (ext : Nat → JobStatus) (job : FinderJob) (profile : Profile) (m : Nat)
    (hstop : ext (job.current_index + 10 * m) = JobStatus.failed ∨
      ext (job.current_index + 10 * m) = JobStatus.paused) :
    ∀ i, job.current_index + 10 * m ≤ i →
      (processJobInBackgroundBatch lookup ext job profile).row.requests_data.get? i =
        job.requests_data.get? i := by
  intro i hi
  have hinv := batchLoop_inv2 lookup ext job.requests_data.length
    (fun bs s =>
      ((∃ k, job.current_index + 10 * m = bs + 10 * k) ∨ job.requests_data.length ≤ bs) ∧
      (∀ j, job.current_index + 10 * m ≤ j →
        s.requests.get? j = job.requests_data.get? j) ∧
      (∀ j, job.current_index + 10 * m ≤ j →
        s.row.requests_data.get? j = job.requests_data.get? j))
    (by
      intro bs s hbs hnostop hPs
      obtain ⟨halign, hreq, hrow⟩ := hPs
      rcases halign with ⟨k, hk⟩ | hge
      · have hkpos : k ≠ 0 := by
          intro h0
          subst h0
          apply hnostop
          rw [show bs = job.current_index + 10 * m by omega]
          exact hstop
        have hble : bs + 10 ≤ job.current_index + 10 * m := by omega
        refine ⟨?_, ?_, ?_⟩
        · by_cases hc : bs + 10 ≤ job.requests_data.length
          · exact Or.inl ⟨k - 1, by rw [min_eq_left hc]; omega⟩
          · exact Or.inr (by rw [min_eq_right (by omega)])
        · intro j hj
          rw [batchIter_requests,
            processItems_get_out lookup _ bs s.requests s.profile j (Or.inr (by omega))]
          exact hreq j hj
        · intro j hj
          rw [batchIter_row_requests_data,
            processItems_get_out lookup _ bs s.requests s.profile j (Or.inr (by omega))]
          exact hreq j hj
      · exact absurd hbs (by omega))
    (job.requests_data.length + 1) job.current_index
    { requests := job.requests_data, profile := profile,
      processedCount := job.processed_requests, successCount := job.successful_finds,
      failedCount := job.failed_finds, totalProcessedRequests := 0,
      row := { job with status := JobStatus.processing },
      writes := [{ job with status := JobStatus.processing }] }
    ⟨Or.inl ⟨m, rfl⟩, fun j _ => rfl, fun j _ => rfl⟩
  obtain ⟨bs2, hfin⟩ := hinv
  set t := batchLoop lookup ext job.requests_data.length
    (job.requests_data.length + 1) job.current_index
    { requests := job.requests_data, profile := profile,
      processedCount := job.processed_requests, successCount := job.successful_finds,
      failedCount := job.failed_finds, totalProcessedRequests := 0,
      row := { job with status := JobStatus.processing },
      writes := [{ job with status := JobStatus.processing }] } with ht
  show t.row.requests_data.get? i = job.requests_data.get? i
  exact hfin.2.2 i hi

/-- C5 witness: a concrete batch run whose status re-read reports paused at
the very first boundary leaves its item untouched (still pending). -/
theorem batch_executor_stops_on_stop_signal_witness :
    (processJobInBackgroundBatch (fun _ => { status := FindStatus.valid, email := some "a@b.c" })
      (fun _ => JobStatus.paused)
      { status := JobStatus.pending
        total_requests := 1
        processed_requests := 0
        successful_finds := 0
        failed_finds := 0
        requests_data := [{}]
        current_index := 0 } ⟨5, 5⟩).row.requests_data.get? 0 =
      some ({} : FindItem) := by
  have h := batch_executor_stops_on_stop_signal
    (fun _ => { status := FindStatus.valid, email := some "a@b.c" })
    (fun _ => JobStatus.paused)
    { status := JobStatus.pending
      total_requests := 1
      processed_requests := 0
      successful_finds := 0
      failed_finds := 0
      requests_data := [{}]
      current_index := 0 } ⟨5, 5⟩ 0 (Or.inr rfl) 0 (by decide)
  rw [h]
  rfl

/-- C6, counterexample: in the bulk-verify executor a per-item credit-check
failure is NOT recorded on the item only: it aborts the whole job, setting the
job-level status to failed with an error message, with no item processed. -/
theorem verify_credit_failure_aborts_job :
    (processVerifyJob (fun _ => { status := VerifyStatus.valid })
      { status := JobStatus.pending
        total_emails := 2
        processed_emails := 0
        successful_verifications := 0
        failed_verifications := 0
        emails_data := [{}, {}] } ⟨0, 0⟩).row.status = JobStatus.failed ∧
    (processVerifyJob (fun _ => { status := VerifyStatus.valid })
      { status := JobStatus.pending
        total_emails := 2
        processed_emails := 0
        successful_verifications := 0
        failed_verifications := 0
        emails_data := [{}, {}] } ⟨0, 0⟩).row.processed_emails = 0 ∧
    (processVerifyJob (fun _ => { status := VerifyStatus.valid })
      { status := JobStatus.pending
        total_emails := 2
        processed_emails := 0
        successful_verifications := 0
        failed_verifications := 0
        emails_data := [{}, {}] } ⟨0, 0⟩).row.error_message =
      some "You don\x27t have enough credits to continue verification. Please purchase additional credits or upgrade your plan to proceed." := by
  refine ⟨rfl, rfl, rfl⟩

/-- C6 (amended): in the batch finder executor a single item's failure (credit
check or lookup) is recorded on the item and never aborts the run: with no
external stop signal, the job always finishes with status completed and EVERY
item from `current_index` on reaches a terminal per-item status, whatever the
lookup results are. -/
theorem finder_item_errors_do_not_abort (lookup : Nat → FindResult)
    (ext : Nat → JobStatus) (job : FinderJob) (profile : Profile)
    (hext : ∀ b, ¬(ext b = JobStatus.failed ∨ ext b = JobStatus.paused)) :
    (processJobInBackgroundBatch lookup ext job profile).row.status = JobStatus.completed ∧
    (∀ i, job.current_index ≤ i → i < job.requests_data.length →
      ∃ r, (processJobInBackgroundBatch lookup ext job profile).row.requests_data.get? i =
          some r ∧
        (r.status = ItemStatus.completed ∨ r.status = ItemStatus.failed)) := by
  constructor
  · rfl
  · intro i h1 h2
    have hrow := batchLoop_inv lookup ext job.requests_data.length
      (fun s => s.row.requests_data = s.requests)
      (by
        intro bs s hbs h
        rw [batchIter_row_requests_data, batchIter_requests])
      (job.requests_data.length + 1) job.current_index
      { requests := job.requests_data, profile := profile,
        processedCount := job.processed_requests, successCount := job.successful_finds,
        failedCount := job.failed_finds, totalProcessedRequests := 0,
        row := { job with status := JobStatus.processing },
        writes := [{ job with status := JobStatus.processing }] }
      rfl
    set t := batchLoop lookup ext job.requests_data.length
      (job.requests_data.length + 1) job.current_index
      { requests := job.requests_data, profile := profile,
        processedCount := job.processed_requests, successCount := job.successful_finds,
        failedCount := job.failed_finds, totalProcessedRequests := 0,
        row := { job with status := JobStatus.processing },
        writes := [{ job with status := JobStatus.processing }] } with ht
    show ∃ r, t.row.requests_data.get? i = some r ∧ _
    rw [hrow]
    exact batchLoop_no_stop_terminal lookup ext job.requests_data.length hext
      (job.requests_data.length + 1) job.current_index _ (by omega) rfl i h1 h2

/-- C6 witness: a concrete batch run whose only lookup errors still completes,
with the item recorded as failed. -/
theorem finder_item_errors_do_not_abort_witness :
    (processJobInBackgroundBatch (fun _ => { status := FindStatus.error })
      (fun _ => JobStatus.processing)
      { status := JobStatus.pending
        total_requests := 1
        processed_requests := 0
        successful_finds := 0
        failed_finds := 0
        requests_data := [{}]
        current_index := 0 } ⟨1, 0⟩).row.status = JobStatus.completed ∧
    (∃ r, (processJobInBackgroundBatch (fun _ => { status := FindStatus.error })
      (fun _ => JobStatus.processing)
      { status := JobStatus.pending
        total_requests := 1
        processed_requests := 0
        successful_finds := 0
        failed_finds := 0
        requests_data := [{}]
        current_index := 0 } ⟨1, 0⟩).row.requests_data.get? 0 = some r ∧
      (r.status = ItemStatus.completed ∨ r.status = ItemStatus.failed)) := by
  have h := finder_item_errors_do_not_abort (fun _ => { status := FindStatus.error })
    (fun _ => JobStatus.processing)
    { status := JobStatus.pending
      total_requests := 1
      processed_requests := 0
      successful_finds := 0
      failed_finds := 0
      requests_data := [{}]
      current_index := 0 } ⟨1, 0⟩ (by intro b; simp)
  exact ⟨h.1, h.2 0 (by decide) (by decide)⟩

/-- Frame fact for one sequential-executor iteration: an index other than the
one being processed is never rewritten, in the working array, in the row
written back, or in any newly persisted write. -/
theorem seqIter_frame (lookup : Nat → FindResult) (i : Nat) (s : SeqState) (j : Nat)
    (hj : j ≠ i) :
    (seqIter lookup i s).requests.get? j = s.requests.get? j ∧
    ((seqIter lookup i s).row.requests_data.get? j = s.requests.get? j ∨
      (seqIter lookup i s).row = s.row) ∧
    (∀ w ∈ (seqIter lookup i s).writes,
      w ∈ s.writes ∨ w.requests_data.get? j = s.requests.get? j) := by
  have hset : ∀ (l : List FindItem) (a : FindItem), (l.set i a).get? j = l.get? j :=
    fun l a => List.get?_set_ne _ _ (Ne.symm hj)
  by_cases hc : s.profile.credits_find + s.profile.credits_verify < 1
  · simp only [seqIter, if_pos hc]
    refine ⟨?_, Or.inl ?_, ?_⟩
    · rw [hset, hset]
    · rw [hset]
    · intro w hw
      rcases List.mem_append.mp hw with hw | hw
      · exact Or.inl hw
      · rw [List.mem_singleton.mp hw]
        exact Or.inr (by rw [hset])
  · simp only [seqIter, if_neg hc]
    refine ⟨?_, Or.inl ?_, ?_⟩
    · rw [hset, hset]
    · rw [hset, hset]
    · intro w hw
      rcases List.mem_append.mp hw with hw | hw
      · rcases List.mem_append.mp hw with hw | hw
        · exact Or.inl hw
        · rw [List.mem_singleton.mp hw]
          exact Or.inr (by rw [hset])
      · rw [List.mem_singleton.mp hw]
        exact Or.inr (by rw [hset, hset])

/-- C7: the recovery daemon's requeue touches only `status` and `updated_at` —
`current_index` and `requests_data` of every job come through unchanged — and
the sequential executor, resumed from `current_index = k`, leaves the items at
indices `< k` unchanged in the final persisted row and in every intermediate
persisted write. -/
theorem requeue_and_resume_preserve_earlier_items :
    (∀ now jobs k,
      ((recoverStuckJobs now jobs).get? k).map
          (fun x => (x.1.current_index, x.1.requests_data)) =
        (jobs.get? k).map (fun x => (x.1.current_index, x.1.requests_data)))
    ∧ (∀ lookup ext job profile j, j < job.current_index →
        (processJobInBackgroundSeq lookup ext job profile).row.requests_data.get? j =
          job.requests_data.get? j ∧
        (∀ w ∈ (processJobInBackgroundSeq lookup ext job profile).writes,
          w.requests_data.get? j = job.requests_data.get? j)) := by
  constructor
  · intro now jobs k
    rw [recoverStuckJobs, List.get?_map]
    cases h : jobs.get? k with
    | none => rfl
    | some x =>
      dsimp only [Option.map]
      by_cases hc : x.1.status = JobStatus.processing ∧ x.2 < now - 30 * 60 * 1000
      · rw [if_pos hc]
      · rw [if_neg hc]
  · intro lookup ext job profile j hj
    have hinv := seqLoop_inv2 lookup ext job.requests_data.length
      (fun i s =>
        job.current_index ≤ i ∧
        s.requests.get? j = job.requests_data.get? j ∧
        s.row.requests_data.get? j = job.requests_data.get? j ∧
        (∀ w ∈ s.writes, w.requests_data.get? j = job.requests_data.get? j))
      (by
        intro i s hi _hstop hPs
        obtain ⟨hcur, hreq, hrow, hws⟩ := hPs
        have hne : j ≠ i := by omega
        obtain ⟨f1, f2, f3⟩ := seqIter_frame lookup i s j hne
        refine ⟨by omega, ?_, ?_, ?_⟩
        · rw [f1]; exact hreq
        · rcases f2 with f2 | f2
          · rw [f2]; exact hreq
          · rw [f2]; exact hrow
        · intro w hw
          rcases f3 w hw with hw2 | hw2
          · exact hws w hw2
          · rw [hw2]; exact hreq)
      (job.requests_data.length + 1) job.current_index
      { requests := job.requests_data, profile := profile,
        processedCount := job.processed_requests, successCount := job.successful_finds,
        failedCount := job.failed_finds, totalProcessedRequests := 0,
        row := { job with status := JobStatus.processing },
        writes := [{ job with status := JobStatus.processing }] }
      ⟨le_rfl, rfl, rfl, by
        intro w hw
        rw [List.mem_singleton.mp hw]⟩
    obtain ⟨i2, hfin⟩ := hinv
    set t := seqLoop lookup ext job.requests_data.length
      (job.requests_data.length + 1) job.current_index
      { requests := job.requests_data, profile := profile,
        processedCount := job.processed_requests, successCount := job.successful_finds,
        failedCount := job.failed_finds, totalProcessedRequests := 0,
        row := { job with status := JobStatus.processing },
        writes := [{ job with status := JobStatus.processing }] } with ht
    constructor
    · show t.row.requests_data.get? j = job.requests_data.get? j
      exact hfin.2.2.1
    · intro w hw
      have hw2 : w ∈ t.writes ++
          [{ t.row with status := JobStatus.completed }] := hw
      rcases List.mem_append.mp hw2 with hw3 | hw3
      · exact hfin.2.2.2 w hw3
      · rw [List.mem_singleton.mp hw3]
        show t.row.requests_data.get? j = job.requests_data.get? j
        exact hfin.2.2.1

/-- C7 witness: a concrete sequential run resumed from index 1 leaves the
already-completed item 0 unchanged in the final row. -/
theorem requeue_and_resume_preserve_earlier_items_witness :
    (processJobInBackgroundSeq (fun _ => { status := FindStatus.error })
      (fun _ => JobStatus.processing)
      { status := JobStatus.pending
        total_requests := 2
        processed_requests := 1
        successful_finds := 1
        failed_finds := 0
        requests_data := [{ status := ItemStatus.completed, email := some "x@y.z" }, {}]
        current_index := 1 } ⟨5, 5⟩).row.requests_data.get? 0 =
      some { status := ItemStatus.completed, email := some "x@y.z" } := by
  have h := (requeue_and_resume_preserve_earlier_items.2 (fun _ => { status := FindStatus.error })
    (fun _ => JobStatus.processing)
    { status := JobStatus.pending
      total_requests := 2
      processed_requests := 1
      successful_finds := 1
      failed_finds := 0
      requests_data := [{ status := ItemStatus.completed, email := some "x@y.z" }, {}]
      current_index := 1 } ⟨5, 5⟩ 0 (by decide)).1
  rw [h]
  rfl

/-- C9, counterexample: on one item with an empty balance the two finder
executors produce different final states: the batch executor counts the
credit-failed item (`processed_requests = 1`) and logs a ledger row of
amount -1 although nothing was debited, while the sequential executor counts
nothing (`processed_requests = 0`) and logs no ledger row. -/
theorem executors_diverge_on_insufficient_credits :
    (processJobInBackgroundBatch (fun _ => { status := FindStatus.error })
      (fun _ => JobStatus.processing)
      { status := JobStatus.pending
        total_requests := 1
        processed_requests := 0
        successful_finds := 0
        failed_finds := 0
        requests_data := [{}]
        current_index := 0 } ⟨0, 0⟩).row.processed_requests = 1 ∧
    (processJobInBackgroundSeq (fun _ => { status := FindStatus.error })
      (fun _ => JobStatus.processing)
      { status := JobStatus.pending
        total_requests := 1
        processed_requests := 0
        successful_finds := 0
        failed_finds := 0
        requests_data := [{}]
        current_index := 0 } ⟨0, 0⟩).row.processed_requests = 0 ∧
    (processJobInBackgroundBatch (fun _ => { status := FindStatus.error })
      (fun _ => JobStatus.processing)
      { status := JobStatus.pending
        total_requests := 1
        processed_requests := 0
        successful_finds := 0
        failed_finds := 0
        requests_data := [{}]
        current_index := 0 } ⟨0, 0⟩).ledgerInserts.length = 1 ∧
    (processJobInBackgroundSeq (fun _ => { status := FindStatus.error })
      (fun _ => JobStatus.processing)
      { status := JobStatus.pending
        total_requests := 1
        processed_requests := 0
        successful_finds := 0
        failed_finds := 0
        requests_data := [{}]
        current_index := 0 } ⟨0, 0⟩).ledgerInserts.length = 0 := by
  refine ⟨rfl, rfl, rfl, rfl⟩

/-- When the combined balance is at least 1, the deduction of the batch item
step reduces it by exactly 1 (no non-negativity needed: the branch choice
`credits_find > 0` keeps the arithmetic exact). -/
theorem processBatchItem_balance (profile : Profile) (req : FindItem) (result : FindResult)
    (hc : ¬(profile.credits_find + profile.credits_verify < 1)) :
    (processBatchItem profile req result).2.1.credits_find +
      (processBatchItem profile req result).2.1.credits_verify =
      profile.credits_find + profile.credits_verify - 1 := by
  simp only [processBatchItem, if_neg hc]
  split_ifs <;> simp_all <;> omega

/-- On the sufficient-credits path, one sequential-executor iteration performs
exactly the batch executor's per-item transformation `processBatchItem` on
item `i` (the transient `processing` status is overwritten before any use). -/
theorem seqIter_main (lookup : Nat → FindResult) (i : Nat) (s : SeqState)
    (hc : ¬(s.profile.credits_find + s.profile.credits_verify < 1)) :
    (seqIter lookup i s).requests =
      s.requests.set i
        (processBatchItem s.profile (s.requests.getD i default) (lookup i)).1 ∧
    (seqIter lookup i s).profile =
      (processBatchItem s.profile (s.requests.getD i default) (lookup i)).2.1 ∧
    (seqIter lookup i s).processedCount = s.processedCount + 1 ∧
    (seqIter lookup i s).successCount = s.successCount +
      (if (processBatchItem s.profile (s.requests.getD i default) (lookup i)).2.2 then 1 else 0) ∧
    (seqIter lookup i s).failedCount = s.failedCount +
      (if (processBatchItem s.profile (s.requests.getD i default) (lookup i)).2.2 then 0 else 1) ∧
    (seqIter lookup i s).totalProcessedRequests = s.totalProcessedRequests + 1 ∧
    (seqIter lookup i s).row = { s.row with
      processed_requests := s.processedCount + 1
      successful_finds := s.successCount +
        (if (processBatchItem s.profile (s.requests.getD i default) (lookup i)).2.2 then 1 else 0)
      failed_finds := s.failedCount +
        (if (processBatchItem s.profile (s.requests.getD i default) (lookup i)).2.2 then 0 else 1)
      requests_data := s.requests.set i
        (processBatchItem s.profile (s.requests.getD i default) (lookup i)).1
      current_index := i + 1 } := by
  simp only [seqIter, processBatchItem, if_neg hc]
  by_cases hC : (lookup i).status = FindStatus.valid ∧ emailTruthy (lookup i).email = true
  · simp only [if_pos hC, List.set_set]
    refine ⟨?_, ?_, ?_, ?_, ?_, ?_, ?_⟩ <;> first | trivial | rfl
  · simp only [if_neg hC, List.set_set]
    refine ⟨?_, ?_, ?_, ?_, ?_, ?_, ?_⟩ <;> first | trivial | rfl

theorem seqLoop_of_ge (lookup : Nat → FindResult) (ext : Nat → JobStatus)
    (len fuel i : Nat) (s : SeqState) (h : len ≤ i) :
    seqLoop lookup ext len fuel i s = s := by
  cases fuel with
  | zero => rfl
  | succ n => rw [seqLoop, if_neg (by omega)]

theorem batchLoop_of_ge (lookup : Nat → FindResult) (ext : Nat → JobStatus)
    (len fuel bs : Nat) (s : BatchState) (h : len ≤ bs) :
    batchLoop lookup ext len fuel bs s = s := by
  cases fuel with
  | zero => rfl
  | succ n => rw [batchLoop, if_neg (by omega)]

/-- Full characterization of a sequential-executor run that is never stopped
externally and has enough credits for every remaining item: it computes
exactly the canonical per-item fold `processItems` over `[i, len)`, advancing
every counter by the item count and leaving the row at `current_index = len`. -/
theorem seqLoop_all (lookup : Nat → FindResult) (ext : Nat → JobStatus) (len : Nat)
    (hext : ∀ b, ¬(ext b = JobStatus.failed ∨ ext b = JobStatus.paused)) :
    ∀ fuel i s, len - i ≤ fuel →
      ((len - i : Nat) : Int) ≤ s.profile.credits_find + s.profile.credits_verify →
      (seqLoop lookup ext len fuel i s).requests =
        (processItems lookup (len - i) i s.requests s.profile).1 ∧
      (seqLoop lookup ext len fuel i s).profile =
        (processItems lookup (len - i) i s.requests s.profile).2.1 ∧
      (seqLoop lookup ext len fuel i s).processedCount = s.processedCount + (len - i) ∧
      (seqLoop lookup ext len fuel i s).successCount =
        s.successCount + (processItems lookup (len - i) i s.requests s.profile).2.2.1 ∧
      (seqLoop lookup ext len fuel i s).failedCount =
        s.failedCount + (processItems lookup (len - i) i s.requests s.profile).2.2.2 ∧
      (seqLoop lookup ext len fuel i s).totalProcessedRequests =
        s.totalProcessedRequests + (len - i) ∧
      (i < len → (seqLoop lookup ext len fuel i s).row = { s.row with
        processed_requests := s.processedCount + (len - i)
        successful_finds :=
          s.successCount + (processItems lookup (len - i) i s.requests s.profile).2.2.1
        failed_finds :=
          s.failedCount + (processItems lookup (len - i) i s.requests s.profile).2.2.2
        requests_data := (processItems lookup (len - i) i s.requests s.profile).1
        current_index := len }) := by
  intro fuel
  induction fuel with
  | zero =>
    intro i s hf hcred
    have hge : len ≤ i := by omega
    have h0 : len - i = 0 := by omega
    rw [seqLoop_of_ge lookup ext len 0 i s hge, h0]
    simp only [processItems]
    refine ⟨?_, ?_, ?_, ?_, ?_, ?_, fun hlt => absurd hlt (by omega)⟩ <;>
      first | trivial | rfl | omega
  | succ n ih =>
    intro i s hf hcred
    by_cases h : i < len
    · rw [seqLoop, if_pos h, if_neg (hext i)]
      have hc : ¬(s.profile.credits_find + s.profile.credits_verify < 1) := by
        push_cast at hcred
        omega
      obtain ⟨e1, e2, e3, e4, e5, e6, e7⟩ := seqIter_main lookup i s hc
      have hbal := processBatchItem_balance s.profile (s.requests.getD i default)
        (lookup i) hc
      have hcred2 : ((len - (i + 1) : Nat) : Int) ≤
          (seqIter lookup i s).profile.credits_find +
          (seqIter lookup i s).profile.credits_verify := by
        rw [e2]
        push_cast at hcred ⊢
        omega
      obtain ⟨g1, g2, g3, g4, g5, g6, g7⟩ := ih (i + 1) (seqIter lookup i s)
        (by omega) hcred2
      rw [e1, e2] at g1 g2 g4 g5
      rw [e3] at g3
      rw [e6] at g6
      have hsub : len - i = (len - (i + 1)) + 1 := by omega
      have hdec : processItems lookup (len - i) i s.requests s.profile =
          ((processItems lookup (len - (i + 1)) (i + 1)
              (s.requests.set i
                (processBatchItem s.profile (s.requests.getD i default) (lookup i)).1)
              (processBatchItem s.profile (s.requests.getD i default) (lookup i)).2.1).1,
            (processItems lookup (len - (i + 1)) (i + 1)
              (s.requests.set i
                (processBatchItem s.profile (s.requests.getD i default) (lookup i)).1)
              (processBatchItem s.profile (s.requests.getD i default) (lookup i)).2.1).2.1,
            (if (processBatchItem s.profile (s.requests.getD i default) (lookup i)).2.2
              then 1 else 0) +
              (processItems lookup (len - (i + 1)) (i + 1)
                (s.requests.set i
                  (processBatchItem s.profile (s.requests.getD i default) (lookup i)).1)
                (processBatchItem s.profile (s.requests.getD i default) (lookup i)).2.1).2.2.1,
            (if (processBatchItem s.profile (s.requests.getD i default) (lookup i)).2.2
              then 0 else 1) +
              (processItems lookup (len - (i + 1)) (i + 1)
                (s.requests.set i
                  (processBatchItem s.profile (s.requests.getD i default) (lookup i)).1)
                (processBatchItem s.profile (s.requests.getD i default) (lookup i)).2.1).2.2.2) := by
        rw [hsub]
        rfl
      refine ⟨?_, ?_, ?_, ?_, ?_, ?_, ?_⟩
      · rw [g1, hdec]
      · rw [g2, hdec]
      · rw [g3]
        omega
      · rw [g4, hdec]
        dsimp only
        omega
      · rw [g5, hdec]
        dsimp only
        omega
      · rw [g6]
        omega
      · intro _
        by_cases h2 : i + 1 < len
        · rw [g7 h2, e7]
          rw [e1, e2, e3, e4, e5]
          simp only [FinderJob.mk.injEq, hdec]
          refine ⟨?_, ?_, ?_, ?_, ?_, ?_, ?_, ?_⟩ <;>
            first | trivial | rfl | (dsimp only; omega)
        · have hlen : len = i + 1 := by omega
          rw [seqLoop_of_ge lookup ext len n (i + 1) (seqIter lookup i s) (by omega), e7]
          simp only [FinderJob.mk.injEq, hdec]
          have h0 : len - (i + 1) = 0 := by omega
          rw [h0]
          simp only [processItems]
          refine ⟨?_, ?_, ?_, ?_, ?_, ?_, ?_, ?_⟩ <;>
            first | trivial | rfl | (dsimp only; omega)
    · have h0 : len - i = 0 := by omega
      rw [seqLoop_of_ge lookup ext len (n + 1) i s (by omega), h0]
      simp only [processItems]
      refine ⟨?_, ?_, ?_, ?_, ?_, ?_, fun hlt => absurd hlt (by omega)⟩ <;>
        first | trivial | rfl | omega

/-- Full characterization of a batch-executor run that is never stopped
externally: it computes the same canonical per-item fold `processItems` over
`[bs, len)` (no credit hypothesis is needed — the batch executor counts items
that fail the credit check too). -/
theorem batchLoop_all (lookup : Nat → FindResult) (ext : Nat → JobStatus) (len : Nat)
    (hext : ∀ b, ¬(ext b = JobStatus.failed ∨ ext b = JobStatus.paused)) :
    ∀ fuel bs s, len - bs ≤ fuel →
      (batchLoop lookup ext len fuel bs s).requests =
        (processItems lookup (len - bs) bs s.requests s.profile).1 ∧
      (batchLoop lookup ext len fuel bs s).profile =
        (processItems lookup (len - bs) bs s.requests s.profile).2.1 ∧
      (batchLoop lookup ext len fuel bs s).processedCount = s.processedCount + (len - bs) ∧
      (batchLoop lookup ext len fuel bs s).successCount =
        s.successCount + (processItems lookup (len - bs) bs s.requests s.profile).2.2.1 ∧
      (batchLoop lookup ext len fuel bs s).failedCount =
        s.failedCount + (processItems lookup (len - bs) bs s.requests s.profile).2.2.2 ∧
      (batchLoop lookup ext len fuel bs s).totalProcessedRequests =
        s.totalProcessedRequests + (len - bs) ∧
      (bs < len → (batchLoop lookup ext len fuel bs s).row = { s.row with
        processed_requests := s.processedCount + (len - bs)
        successful_finds :=
          s.successCount + (processItems lookup (len - bs) bs s.requests s.profile).2.2.1
        failed_finds :=
          s.failedCount + (processItems lookup (len - bs) bs s.requests s.profile).2.2.2
        requests_data := (processItems lookup (len - bs) bs s.requests s.profile).1
        current_index := len }) := by
  intro fuel
  induction fuel with
  | zero =>
    intro bs s hf
    have h0 : len - bs = 0 := by omega
    rw [batchLoop_of_ge lookup ext len 0 bs s (by omega), h0]
    simp only [processItems]
    refine ⟨?_, ?_, ?_, ?_, ?_, ?_, fun hlt => absurd hlt (by omega)⟩ <;>
      first | trivial | rfl | omega
  | succ n ih =>
    intro bs s hf
    by_cases h : bs < len
    · rw [batchLoop, if_pos h, if_neg (hext bs)]
      have hm1 : min (bs + 10) len ≤ len := min_le_right _ _
      have hm2 : bs < min (bs + 10) len := lt_min (by omega) h
      obtain ⟨g1, g2, g3, g4, g5, g6, g7⟩ := ih (min (bs + 10) len)
        (batchIter lookup len bs s) (by omega)
      rw [batchIter_requests, batchIter_profile] at g1 g2 g4 g5
      rw [batchIter_processedCount] at g3
      rw [batchIter_successCount] at g4
      rw [batchIter_failedCount] at g5
      rw [batchIter_totalProcessed] at g6
      have hbe : bs + (min (bs + 10) len - bs) = min (bs + 10) len := by omega
      have happ := processItems_append lookup (min (bs + 10) len - bs)
        (len - min (bs + 10) len) bs s.requests s.profile
      rw [hbe] at happ
      have hmn : len - bs = (min (bs + 10) len - bs) + (len - min (bs + 10) len) := by
        omega
      rw [hmn, happ]
      refine ⟨?_, ?_, ?_, ?_, ?_, ?_, ?_⟩
      · rw [g1]
      · rw [g2]
      · rw [g3]
        omega
      · rw [g4]
        dsimp only
        omega
      · rw [g5]
        dsimp only
        omega
      · rw [g6]
        omega
      · intro _
        by_cases h2 : min (bs + 10) len < len
        · rw [g7 h2]
          rw [batchIter_processedCount, batchIter_successCount, batchIter_failedCount,
            batchIter_requests, batchIter_profile]
          simp only [FinderJob.mk.injEq]
          refine ⟨?_, ?_, ?_, ?_, ?_, ?_, ?_, ?_⟩ <;>
            first | trivial | rfl | (dsimp only; omega)
        · have h0 : len - min (bs + 10) len = 0 := by omega
          rw [batchLoop_of_ge lookup ext len n (min (bs + 10) len)
            (batchIter lookup len bs s) (by omega), h0]
          simp only [processItems]
          rw [show (batchIter lookup len bs s).row = { s.row with
            processed_requests := s.processedCount + (min (bs + 10) len - bs)
            successful_finds := s.successCount +
              (processItems lookup (min (bs + 10) len - bs) bs s.requests s.profile).2.2.1
            failed_finds := s.failedCount +
              (processItems lookup (min (bs + 10) len - bs) bs s.requests s.profile).2.2.2
            requests_data :=
              (processItems lookup (min (bs + 10) len - bs) bs s.requests s.profile).1
            current_index := min (bs + 10) len } from rfl]
          simp only [FinderJob.mk.injEq]
          refine ⟨?_, ?_, ?_, ?_, ?_, ?_, ?_, ?_⟩ <;>
            first | trivial | rfl | (dsimp only; omega)
    · have h0 : len - bs = 0 := by omega
      rw [batchLoop_of_ge lookup ext len (n + 1) bs s (by omega), h0]
      simp only [processItems]
      refine ⟨?_, ?_, ?_, ?_, ?_, ?_, fun hlt => absurd hlt (by omega)⟩ <;>
        first | trivial | rfl | omega

/-- C9 (amended): when neither run is stopped externally and the account holds
at least as many combined credits as there are remaining items, the
batch-of-10 executor and the one-at-a-time executor produce identical final
state: the same final job row (per-item statuses and results, counters,
current_index, status), the same final balance, the same ledger insert, and
the same `totalProcessedRequests`.  (Without the credit hypothesis they
diverge — see the counterexample.) -/
theorem batch_and_sequential_executors_agree (lookup : Nat → FindResult)
    (ext1 ext2 : Nat → JobStatus) (job : FinderJob) (profile : Profile)
    (h1 : ∀ b, ¬(ext1 b = JobStatus.failed ∨ ext1 b = JobStatus.paused))
    (h2 : ∀ b, ¬(ext2 b = JobStatus.failed ∨ ext2 b = JobStatus.paused))
    (hcred : ((job.requests_data.length - job.current_index : Nat) : Int) ≤
      profile.credits_find + profile.credits_verify) :
    (processJobInBackgroundBatch lookup ext1 job profile).row =
      (processJobInBackgroundSeq lookup ext2 job profile).row ∧
    (processJobInBackgroundBatch lookup ext1 job profile).profile =
      (processJobInBackgroundSeq lookup ext2 job profile).profile ∧
    (processJobInBackgroundBatch lookup ext1 job profile).ledgerInserts =
      (processJobInBackgroundSeq lookup ext2 job profile).ledgerInserts ∧
    (processJobInBackgroundBatch lookup ext1 job profile).totalProcessedRequests =
      (processJobInBackgroundSeq lookup ext2 job profile).totalProcessedRequests := by
  obtain ⟨b1, b2, b3, b4, b5, b6, b7⟩ := batchLoop_all lookup ext1
    job.requests_data.length h1 (job.requests_data.length + 1) job.current_index
    { requests := job.requests_data, profile := profile,
      processedCount := job.processed_requests, successCount := job.successful_finds,
      failedCount := job.failed_finds, totalProcessedRequests := 0,
      row := { job with status := JobStatus.processing },
      writes := [{ job with status := JobStatus.processing }] }
    (by omega)
  obtain ⟨s1, s2, s3, s4, s5, s6, s7⟩ := seqLoop_all lookup ext2
    job.requests_data.length h2 (job.requests_data.length + 1) job.current_index
    { requests := job.requests_data, profile := profile,
      processedCount := job.processed_requests, successCount := job.successful_finds,
      failedCount := job.failed_finds, totalProcessedRequests := 0,
      row := { job with status := JobStatus.processing },
      writes := [{ job with status := JobStatus.processing }] }
    (by omega) hcred
  set t1 := batchLoop lookup ext1 job.requests_data.length
    (job.requests_data.length + 1) job.current_index
    { requests := job.requests_data, profile := profile,
      processedCount := job.processed_requests, successCount := job.successful_finds,
      failedCount := job.failed_finds, totalProcessedRequests := 0,
      row := { job with status := JobStatus.processing },
      writes := [{ job with status := JobStatus.processing }] } with ht1
  set t2 := seqLoop lookup ext2 job.requests_data.length
    (job.requests_data.length + 1) job.current_index
    { requests := job.requests_data, profile := profile,
      processedCount := job.processed_requests, successCount := job.successful_finds,
      failedCount := job.failed_finds, totalProcessedRequests := 0,
      row := { job with status := JobStatus.processing },
      writes := [{ job with status := JobStatus.processing }] } with ht2
  have htot : t1.totalProcessedRequests = t2.totalProcessedRequests := by
    rw [b6, s6]
  have hprof : t1.profile = t2.profile := by
    rw [b2, s2]
  have hrow : t1.row = t2.row := by
    by_cases hstart : job.current_index < job.requests_data.length
    · rw [b7 hstart, s7 hstart]
    · rw [ht1, ht2]
      rw [batchLoop_of_ge lookup ext1 _ _ _ _ (by omega),
        seqLoop_of_ge lookup ext2 _ _ _ _ (by omega)]
  refine ⟨?_, ?_, ?_, ?_⟩
  · show ({ t1.row with status := JobStatus.completed } : FinderJob) =
      { t2.row with status := JobStatus.completed }
    rw [hrow]
  · exact hprof
  · show (if t1.totalProcessedRequests > 0 then
        [{ amount := -(t1.totalProcessedRequests : Int), operation := "email_find",
           meta_total_requests := t1.totalProcessedRequests }]
      else ([] : List CreditTxn)) =
      (if t2.totalProcessedRequests > 0 then
        [{ amount := -(t2.totalProcessedRequests : Int), operation := "email_find",
           meta_total_requests := t2.totalProcessedRequests }]
      else ([] : List CreditTxn))
    rw [htot]
  · exact htot

/-- C9 witness: on a concrete 2-item job with exactly 2 credits and no
external stop, the two executors report the same final row and ledger. -/
theorem batch_and_sequential_executors_agree_witness :
    (processJobInBackgroundBatch (fun _ => { status := FindStatus.error })
      (fun _ => JobStatus.processing)
      { status := JobStatus.pending
        total_requests := 2
        processed_requests := 0
        successful_finds := 0
        failed_finds := 0
        requests_data := [{}, {}]
        current_index := 0 } ⟨2, 0⟩).row =
    (processJobInBackgroundSeq (fun _ => { status := FindStatus.error })
      (fun _ => JobStatus.processing)
      { status := JobStatus.pending
        total_requests := 2
        processed_requests := 0
        successful_finds := 0
        failed_finds := 0
        requests_data := [{}, {}]
        current_index := 0 } ⟨2, 0⟩).row := by
  exact (batch_and_sequential_executors_agree (fun _ => { status := FindStatus.error })
    (fun _ => JobStatus.processing) (fun _ => JobStatus.processing)
    { status := JobStatus.pending
      total_requests := 2
      processed_requests := 0
      successful_finds := 0
      failed_finds := 0
      requests_data := [{}, {}]
      current_index := 0 } ⟨2, 0⟩ (by intro b; simp) (by intro b; simp) (by decide)).1

end MailFinder
